import Mathlib

/-!
# Shallow embedding of the clara conversational scheduling core

This file embeds the TypeScript core of the repository (command parser,
validation/conflict engine, session manager and message processor) as
executable Lean definitions and proves properties of them.

Modelling conventions:

* Timestamps are whole minutes since the JavaScript epoch 1970-01-01 00:00
  (local time), as a `Nat`.  The JS `Date.getDay()` weekday of the day
  containing minute `t` is `(t / 1440 + 4) % 7` (1970-01-01 was a Thursday,
  JS weekday 4).  Durations and TTLs are also in minutes (the source uses
  milliseconds and seconds; all the quantities of interest are whole
  minutes).
* JS `Invalid Date` values produced by arithmetic on `NaN` are modelled as
  `none`.
* Working-hours configuration strings `"HH:MM-HH:MM"` are modelled
  pre-parsed as the four numeric fields that the source recovers with
  `split('-')`/`split(':')`; the literal `'closed'` becomes a dedicated
  constructor.
* Prisma queries are modelled as scans of explicit in-memory lists, with
  `findFirst` as `List.find?` in list order.
* JS floating point similarity scores are modelled as exact rationals; for
  the name lengths involved the comparisons with the threshold `0.7`
  coincide with the double-precision ones.
-/

/-- JS `Date.getDay()`: weekday of the day containing `t` (0 = Sunday). -/
def dayOfWeek (t : Nat) : Nat := (t / 1440 + 4) % 7

/-- The day number (days since the epoch) of a timestamp. -/
def dayNumber (t : Nat) : Nat := t / 1440

/-- JS `Date.getHours()`. -/
def getHours (t : Nat) : Nat := t % 1440 / 60

/-- JS `Date.getMinutes()`. -/
def getMinutes (t : Nat) : Nat := t % 60

/-- Time of day in minutes since midnight (`getHours() * 60 + getMinutes()`). -/
def minutesOfDay (t : Nat) : Nat := t % 1440

/-- Midnight of the day containing `t` (JS `setHours(0,0,0,0)`). -/
def midnightOf (t : Nat) : Nat := t / 1440 * 1440

/-! ## JS string primitives used by the core -/

/-- JS `String.prototype.toLowerCase` restricted to the alphabet the core
manipulates: ASCII letters plus the accented Latin letters appearing in the
Portuguese vocabulary of the parser.  Other characters are unchanged. -/
def toLowerChar (c : Char) : Char :=
  if 'A' ≤ c ∧ c ≤ 'Z' then Char.ofNat (c.toNat + 32)
  else if c = 'Á' then 'á' else if c = 'À' then 'à' else if c = 'Â' then 'â'
  else if c = 'Ã' then 'ã' else if c = 'Ä' then 'ä' else if c = 'É' then 'é'
  else if c = 'È' then 'è' else if c = 'Ê' then 'ê' else if c = 'Í' then 'í'
  else if c = 'Ó' then 'ó' else if c = 'Ô' then 'ô' else if c = 'Õ' then 'õ'
  else if c = 'Ú' then 'ú' else if c = 'Ü' then 'ü' else if c = 'Ç' then 'ç'
  else c

/-- JS `toUpperCase` on a single character (same alphabet as `toLowerChar`). -/
def toUpperChar (c : Char) : Char :=
  if 'a' ≤ c ∧ c ≤ 'z' then Char.ofNat (c.toNat - 32)
  else if c = 'á' then 'Á' else if c = 'à' then 'À' else if c = 'â' then 'Â'
  else if c = 'ã' then 'Ã' else if c = 'ä' then 'Ä' else if c = 'é' then 'É'
  else if c = 'è' then 'È' else if c = 'ê' then 'Ê' else if c = 'í' then 'Í'
  else if c = 'ó' then 'Ó' else if c = 'ô' then 'Ô' else if c = 'õ' then 'Õ'
  else if c = 'ú' then 'Ú' else if c = 'ü' then 'Ü' else if c = 'ç' then 'Ç'
  else c

/-- JS `s.toLowerCase()`. -/
def toLowerStr (s : String) : String := String.mk (s.data.map toLowerChar)

/-- JS `s.includes(sub)`: substring test. -/
def strContains (s sub : String) : Bool := decide (sub.data <:+: s.data)

/-- JS `s.trim()`: strip whitespace from both ends. -/
def trimStr (s : String) : String :=
  String.mk (((s.data.dropWhile Char.isWhitespace).reverse.dropWhile Char.isWhitespace).reverse)

/-! ## Data model (src/types/index.ts and the prisma schema) -/

structure Patient where
  id : String
  psychologistId : String
  fullName : String
deriving DecidableEq, Repr

structure Session where
  id : String
  psychologistId : String
  patientId : String
  scheduledAt : Nat
  durationMinutes : Nat
  status : String
deriving DecidableEq, Repr

structure AvailabilityBlock where
  psychologistId : String
  startTime : Nat
  endTime : Nat
deriving DecidableEq, Repr

/-- One weekday's entry of the working-hours configuration: either the
literal `'closed'` or a pre-parsed `"HH:MM-HH:MM"` range. -/
inductive DayHours where
  | closed
  | range (startHour startMinute endHour endMinute : Nat)
deriving DecidableEq, Repr

structure Psychologist where
  id : String
  whatsappNumber : String
  fullName : String
  sessionDurationMinutes : Nat
  workingHours : List (String × DayHours)
deriving DecidableEq, Repr

structure MessageLog where
  psychologistId : Option String
  messageType : String
  content : String
deriving DecidableEq, Repr

/-- The persistent store the prisma client reads and writes. -/
structure DB where
  psychologists : List Psychologist
  patients : List Patient
  sessions : List Session
  availabilityBlocks : List AvailabilityBlock
  messageLogs : List MessageLog
deriving Repr

structure ParsedCommand where
  action : String
  patient : Option String := none
  datetime : Option Nat := none
  timeframe : Option String := none
  confidence : ℚ
  originalText : String
deriving DecidableEq, Repr

structure AvailableSlot where
  start : Nat
  stop : Nat
  formatted : String
deriving DecidableEq, Repr

structure ConflictingSessionInfo where
  patientName : String
  startTime : String
  endTime : String
deriving DecidableEq, Repr

structure ConflictInfo where
  hasConflict : Bool
  conflictingSession : Option ConflictingSessionInfo := none
  availableSlots : Option (List AvailableSlot) := none
deriving DecidableEq, Repr

/-! ## ValidationLayer (src/services/validation-layer.ts) -/

/-- Two-digit rendering used by `toLocaleTimeString('pt-BR')`. -/
def pad2 (n : Nat) : String := (if n < 10 then "0" else "") ++ toString n

/-- Source `ValidationLayer.formatTime`: `HH:MM`. -/
def formatTime (t : Nat) : String := pad2 (getHours t) ++ ":" ++ pad2 (getMinutes t)

/-- Source `ValidationLayer.formatTimeSlot`. -/
def formatTimeSlot (s e : Nat) : String := formatTime s ++ " - " ++ formatTime e

/-- Source `ValidationLayer.getDayName`. -/
def getDayName (dow : Nat) : String :=
  (["dom", "seg", "ter", "qua", "qui", "sex", "sab"].get? dow).getD "dom"

/-- Source `ValidationLayer.isWithinWorkingHours`: looks up the weekday's range and
tests the time of day of `datetime` against `[start, end)`. -/
def isWithinWorkingHours (datetime : Nat) (workingHours : List (String × DayHours)) : Bool :=
  match workingHours.lookup (getDayName (dayOfWeek datetime)) with
  | none => false
  | some .closed => false
  | some (.range startHour startMinute endHour endMinute) =>
    let sessionTimeInMinutes := getHours datetime * 60 + getMinutes datetime
    let startTimeInMinutes := startHour * 60 + startMinute
    let endTimeInMinutes := endHour * 60 + endMinute
    decide (startTimeInMinutes ≤ sessionTimeInMinutes ∧ sessionTimeInMinutes < endTimeInMinutes)

/-- One row of the `levenshteinDistance` dynamic-programming matrix:
walking `str1`, `pi :: prest` is the previous row from column `i` on,
`diag` its column `i - 1` entry, and `left` the entry just written. -/
def levRowAux (c2 : Char) : List Char → List Nat → Nat → Nat → List Nat
  | [], _, _, _ => []
  | _ :: _, [], _, _ => []
  | c1 :: cs, pi :: prest, diag, left =>
    let v := min (left + 1) (min (pi + 1) (diag + if c1 = c2 then 0 else 1))
    v :: levRowAux c2 cs prest pi v

/-- Source `ValidationLayer.levenshteinDistance`: the row-by-row
dynamic-programming matrix of the source (`matrix[j][i]` is the distance
between the first `i` characters of `str1` and the first `j` of `str2`). -/
def levenshteinDistance (str1 str2 : List Char) : Nat :=
  let firstRow := List.range (str1.length + 1)
  let lastRow := str2.foldl (fun prevRow c2 =>
    match prevRow with
    | [] => []
    | p0 :: prest => (p0 + 1) :: levRowAux c2 str1 prest p0 (p0 + 1)) firstRow
  lastRow.getLastD 0

/-- Source `ValidationLayer.calculateStringSimilarity`:
`(longer.length - editDistance) / longer.length` as an exact rational. -/
def calculateStringSimilarity (str1 str2 : String) : ℚ :=
  let longer := if str1.length > str2.length then str1 else str2
  let shorter := if str1.length > str2.length then str2 else str1
  if longer.length = 0 then 1
  else mkRat ((longer.length : Int) - levenshteinDistance longer.data shorter.data)
    longer.length

/-- One step of the `findBestNameMatch` loop: keep the candidate only when
its similarity strictly exceeds both the threshold `0.7` and the best score
so far. -/
def bestMatchStep (inputName : String) (acc : Option Patient × ℚ) (patient : Patient) :
    Option Patient × ℚ :=
  let similarity := calculateStringSimilarity (toLowerStr inputName) (toLowerStr patient.fullName)
  if mkRat 7 10 < similarity ∧ acc.2 < similarity then (some patient, similarity) else acc

/-- Source `ValidationLayer.findBestNameMatch`. -/
def findBestNameMatch (inputName : String) (patients : List Patient) : Option Patient :=
  if patients.isEmpty then none
  else (patients.foldl (bestMatchStep inputName) (none, 0)).1

/-- Source `ValidationLayer.findPatientByName`: exact case-insensitive match first,
then the fuzzy search over all of the owner's patients. -/
def findPatientByName (name : String) (psychologistId : String) (db : DB) : Option Patient :=
  match db.patients.find? (fun p =>
      p.psychologistId == psychologistId && toLowerStr p.fullName == toLowerStr name) with
  | some patient => some patient
  | none =>
    let patients := db.patients.filter (fun p => p.psychologistId == psychologistId)
    findBestNameMatch name patients

/-- The `OR` filter of the prisma query inside
`ValidationLayer.checkSchedulingConflicts`: the existing session either
starts inside the candidate interval, or starts strictly before it but at
most 60 minutes earlier (the source's `Máximo 60min antes` approximation,
which ignores the existing session's actual duration). -/
def conflictQueryMatches (sessionStart sessionEnd : Nat) (psychologistId : String)
    (s : Session) : Bool :=
  s.psychologistId == psychologistId && s.status == "scheduled" &&
    ((sessionStart ≤ s.scheduledAt && s.scheduledAt < sessionEnd) ||
      (s.scheduledAt < sessionStart && sessionStart - 60 ≤ s.scheduledAt))

/-- The availability-block filter of `checkSchedulingConflicts`: the block
fully contains the candidate interval. -/
def blockQueryMatches (sessionStart sessionEnd : Nat) (psychologistId : String)
    (b : AvailabilityBlock) : Bool :=
  b.psychologistId == psychologistId && b.startTime ≤ sessionStart && sessionEnd ≤ b.endTime

/-- Source `Math.ceil(minutes / 30) * 30` applied to the minutes-of-hour field,
keeping the rest of the timestamp (rounding `t` up to the next half hour). -/
def roundUpTo30 (t : Nat) : Nat := t - t % 60 + (t % 60 + 29) / 30 * 30

/-- The slot predicate inside `getDayAvailableSlots`: the candidate slot
intersects the existing session's interval. -/
def slotConflicts (currentTime slotEnd : Nat) (existingSessions : List Session) : Bool :=
  existingSessions.any (fun session =>
    let sessionEnd := session.scheduledAt + session.durationMinutes
    (session.scheduledAt ≤ currentTime && currentTime < sessionEnd) ||
      (session.scheduledAt < slotEnd && slotEnd ≤ sessionEnd) ||
      (currentTime ≤ session.scheduledAt && sessionEnd ≤ slotEnd))

/-- The `while` loop of `getDayAvailableSlots`: walk in 30-minute steps
while the whole slot still fits before `dayEnd`, keeping conflict-free
slots.  The first argument bounds the number of iterations; since each
iteration advances the time by 30 minutes, `dayEnd + 1 - currentTime`
iterations (the value `slotLoop` passes) always suffice, so the recursion
is exactly the source's `while` loop. -/
def slotLoopIter (dayEnd : Nat) (durationMinutes : Nat) (existingSessions : List Session) :
    Nat → Nat → List AvailableSlot
  | 0, _ => []
  | iter + 1, currentTime =>
    if currentTime + durationMinutes ≤ dayEnd then
      let slotEnd := currentTime + durationMinutes
      let rest := slotLoopIter dayEnd durationMinutes existingSessions iter (currentTime + 30)
      if slotConflicts currentTime slotEnd existingSessions then rest
      else ⟨currentTime, slotEnd, formatTimeSlot currentTime slotEnd⟩ :: rest
    else []

def slotLoop (dayEnd : Nat) (durationMinutes : Nat) (existingSessions : List Session)
    (currentTime : Nat) : List AvailableSlot :=
  slotLoopIter dayEnd durationMinutes existingSessions (dayEnd + 1 - currentTime) currentTime

/-- Source `ValidationLayer.getDayAvailableSlots`. -/
def getDayAvailableSlots (date : Nat) (durationMinutes : Nat) (psychologistId : String)
    (workingHours : List (String × DayHours)) (db : DB) (now : Nat) : List AvailableSlot :=
  match workingHours.lookup (getDayName (dayOfWeek date)) with
  | none => []
  | some .closed => []
  | some (.range startH startM endH endM) =>
    let dayStart := midnightOf date + (startH * 60 + startM)
    let dayEnd := midnightOf date + (endH * 60 + endM)
    let existingSessions := db.sessions.filter (fun s =>
      s.psychologistId == psychologistId && s.status == "scheduled" &&
        dayStart ≤ s.scheduledAt && s.scheduledAt < date + 1440)
    let currentTime :=
      if dayNumber date == dayNumber now && dayStart < now then roundUpTo30 now else dayStart
    slotLoop dayEnd durationMinutes existingSessions currentTime

/-- The day loop of `findAvailableSlots`: accumulate each day's slots,
stopping early once 6 have been collected.  `remaining` counts the days
still to scan (`daysToCheck - i`), so the recursion is the source's
`for (let i = 0; i < daysToCheck; i++)` loop. -/
def findSlotsLoop (preferredDate : Nat) (durationMinutes : Nat) (psychologistId : String)
    (workingHours : List (String × DayHours)) (db : DB) (now : Nat) :
    Nat → Nat → List AvailableSlot → List AvailableSlot
  | _, 0, slots => slots
  | i, remaining + 1, slots =>
    let checkDate := preferredDate + i * 1440
    let slots := slots ++ getDayAvailableSlots checkDate durationMinutes psychologistId
      workingHours db now
    if 6 ≤ slots.length then slots
    else findSlotsLoop preferredDate durationMinutes psychologistId workingHours db now
      (i + 1) remaining slots

/-- Source `ValidationLayer.findAvailableSlots` (default horizon 7 days). -/
def findAvailableSlots (preferredDate : Nat) (durationMinutes : Nat)
    (psychologistId : String) (db : DB) (now : Nat) (daysToCheck : Nat := 7) :
    List AvailableSlot :=
  match db.psychologists.find? (fun p => p.id == psychologistId) with
  | none => []
  | some psychologist =>
    (findSlotsLoop preferredDate durationMinutes psychologistId psychologist.workingHours db now
      0 daysToCheck []).take 6

/-- Source `ValidationLayer.checkSchedulingConflicts`. -/
def checkSchedulingConflicts (datetime : Nat) (durationMinutes : Nat)
    (psychologistId : String) (db : DB) (now : Nat) : ConflictInfo :=
  let sessionStart := datetime
  let sessionEnd := datetime + durationMinutes
  let blockResult : ConflictInfo :=
    match db.availabilityBlocks.find? (blockQueryMatches sessionStart sessionEnd psychologistId) with
    | some _ =>
      { hasConflict := true
        availableSlots := some (findAvailableSlots datetime durationMinutes psychologistId db now) }
    | none => { hasConflict := false }
  match db.sessions.find? (conflictQueryMatches sessionStart sessionEnd psychologistId) with
  | some conflictingSession =>
    match db.patients.find? (fun p => p.id == conflictingSession.patientId) with
    | some patient =>
      let conflictEnd := conflictingSession.scheduledAt + conflictingSession.durationMinutes
      { hasConflict := true
        conflictingSession := some
          ⟨patient.fullName, formatTime conflictingSession.scheduledAt, formatTime conflictEnd⟩
        availableSlots := some (findAvailableSlots datetime durationMinutes psychologistId db now) }
    | none => blockResult
  | none => blockResult

structure ScheduleValidation where
  isValid : Bool
  conflicts : ConflictInfo
  patient : Option Patient := none
  errors : List String
deriving DecidableEq, Repr

/-- Source `ValidationLayer.validateScheduleCommand`. -/
def validateScheduleCommand (command : ParsedCommand) (psychologistId : String) (db : DB)
    (now : Nat) : ScheduleValidation :=
  match command.patient, command.datetime with
  | none, none =>
    ⟨false, { hasConflict := false }, none,
      ["Nome do paciente é obrigatório", "Data e horário são obrigatórios"]⟩
  | none, some _ =>
    ⟨false, { hasConflict := false }, none, ["Nome do paciente é obrigatório"]⟩
  | some _, none =>
    ⟨false, { hasConflict := false }, none, ["Data e horário são obrigatórios"]⟩
  | some patientName, some datetime =>
    match db.psychologists.find? (fun p => p.id == psychologistId) with
    | none => ⟨false, { hasConflict := false }, none, ["Psicólogo não encontrado"]⟩
    | some psychologist =>
      let errors :=
        (if isWithinWorkingHours datetime psychologist.workingHours then []
          else ["Horário fora do expediente"]) ++
        (if datetime < now then ["Não é possível agendar no passado"] else [])
      let patient := findPatientByName patientName psychologistId db
      let conflicts := checkSchedulingConflicts datetime psychologist.sessionDurationMinutes
        psychologistId db now
      ⟨errors.isEmpty && !conflicts.hasConflict, conflicts, patient, errors⟩

structure CancelValidation where
  isValid : Bool
  session : Option (Session × Patient) := none
  errors : List String
deriving DecidableEq, Repr

/-- Source `ValidationLayer.validateCancelCommand`. -/
def validateCancelCommand (command : ParsedCommand) (psychologistId : String) (db : DB) :
    CancelValidation :=
  match command.patient, command.datetime with
  | none, none =>
    ⟨false, none, ["Nome do paciente é obrigatório", "Data é obrigatória"]⟩
  | none, some _ => ⟨false, none, ["Nome do paciente é obrigatório"]⟩
  | some _, none => ⟨false, none, ["Data é obrigatória"]⟩
  | some patientName, some datetime =>
    match findPatientByName patientName psychologistId db with
    | none => ⟨false, none, ["Paciente " ++ patientName ++ " não encontrado"]⟩
    | some patient =>
      let startOfDay := midnightOf datetime
      let endOfDay := midnightOf datetime + 1439
      match db.sessions.find? (fun s =>
          s.psychologistId == psychologistId && s.patientId == patient.id &&
            startOfDay ≤ s.scheduledAt && s.scheduledAt ≤ endOfDay &&
            s.status == "scheduled") with
      | none =>
        ⟨false, none, ["Nenhuma sessão encontrada para " ++ patientName ++ " nesta data"]⟩
      | some session => ⟨true, some (session, patient), []⟩

/-! ## Calendar arithmetic (JS `Date` construction and field access)

`daysFromCivil`/`civilFromDays` convert between Gregorian calendar dates and
day numbers relative to 1970-01-01 (the standard civil-calendar algorithms);
`jsMakeDate` reproduces `new Date(year, monthIndex, day)` including its
normalization of out-of-range month and day values.  Dates before the epoch
are not representable in the `Nat` minute model and come out as `none`. -/

def daysFromCivil (y m d : Int) : Int :=
  let y := if m ≤ 2 then y - 1 else y
  let era := (if 0 ≤ y then y else y - 399) / 400
  let yoe := y - era * 400
  let mp := (m + 9) % 12
  let doy := (153 * mp + 2) / 5 + d - 1
  let doe := yoe * 365 + yoe / 4 - yoe / 100 + doy
  era * 146097 + doe - 719468

def civilFromDays (z : Int) : Int × Int × Int :=
  let z := z + 719468
  let era := (if 0 ≤ z then z else z - 146096) / 146097
  let doe := z - era * 146097
  let yoe := (doe - doe / 1460 + doe / 36524 - doe / 146096) / 365
  let y := yoe + era * 400
  let doy := doe - (365 * yoe + yoe / 4 - yoe / 100)
  let mp := (5 * doy + 2) / 153
  let d := doy - (153 * mp + 2) / 5 + 1
  let m := if mp < 10 then mp + 3 else mp - 9
  (if m ≤ 2 then y + 1 else y, m, d)

/-- JS `Date.getFullYear()` of a timestamp. -/
def getFullYear (t : Nat) : Int := (civilFromDays (dayNumber t)).1

/-- Source `new Date(year, monthIndex, day)` at midnight, in minutes since the
epoch (`none` when the result lies before the epoch). -/
def jsMakeDate (year monthIndex day : Int) : Option Nat :=
  let totalMonths := year * 12 + monthIndex
  let y := totalMonths.ediv 12
  let m := totalMonths.emod 12 + 1
  let t := (daysFromCivil y m 1 + (day - 1)) * 1440
  if t < 0 then none else some t.toNat

/-- JS `parseInt(s, 10)` restricted to the digit strings produced by the
parser's capture groups; non-numeric input gives `none` (JS `NaN`). -/
def parseIntJS (s : String) : Option Nat :=
  if s ≠ "" ∧ s.data.all Char.isDigit then
    some (s.data.foldl (fun acc c => acc * 10 + (c.toNat - 48)) 0)
  else none

/-! ## CommandParser (src/services/command-parser.ts): entity extraction -/

/-- The Unicode combining marks `[̀-ͯ]` removed by
`normalizeMessage`. -/
def isCombiningMark (c : Char) : Bool := 0x300 ≤ c.toNat ∧ c.toNat ≤ 0x36F

/-- Unicode NFD decomposition of the accented Latin letters in the core's
alphabet (base letter followed by a combining mark); other characters
decompose to themselves. -/
def nfdChar (c : Char) : List Char :=
  if c = 'á' then ['a', Char.ofNat 0x301] else if c = 'à' then ['a', Char.ofNat 0x300]
  else if c = 'â' then ['a', Char.ofNat 0x302] else if c = 'ã' then ['a', Char.ofNat 0x303]
  else if c = 'ä' then ['a', Char.ofNat 0x308] else if c = 'é' then ['e', Char.ofNat 0x301]
  else if c = 'è' then ['e', Char.ofNat 0x300] else if c = 'ê' then ['e', Char.ofNat 0x302]
  else if c = 'í' then ['i', Char.ofNat 0x301] else if c = 'ó' then ['o', Char.ofNat 0x301]
  else if c = 'ô' then ['o', Char.ofNat 0x302] else if c = 'õ' then ['o', Char.ofNat 0x303]
  else if c = 'ú' then ['u', Char.ofNat 0x301] else if c = 'ü' then ['u', Char.ofNat 0x308]
  else if c = 'ç' then ['c', Char.ofNat 0x327]
  else if c = 'Á' then ['A', Char.ofNat 0x301] else if c = 'À' then ['A', Char.ofNat 0x300]
  else if c = 'Â' then ['A', Char.ofNat 0x302] else if c = 'Ã' then ['A', Char.ofNat 0x303]
  else if c = 'Ä' then ['A', Char.ofNat 0x308] else if c = 'É' then ['E', Char.ofNat 0x301]
  else if c = 'È' then ['E', Char.ofNat 0x300] else if c = 'Ê' then ['E', Char.ofNat 0x302]
  else if c = 'Í' then ['I', Char.ofNat 0x301] else if c = 'Ó' then ['O', Char.ofNat 0x301]
  else if c = 'Ô' then ['O', Char.ofNat 0x302] else if c = 'Õ' then ['O', Char.ofNat 0x303]
  else if c = 'Ú' then ['U', Char.ofNat 0x301] else if c = 'Ü' then ['U', Char.ofNat 0x308]
  else if c = 'Ç' then ['C', Char.ofNat 0x327]
  else [c]

/-- Source `CommandParser.normalizeMessage`: lower-case, NFD-decompose, strip the
combining marks, trim. -/
def normalizeMessage (message : String) : String :=
  trimStr (String.mk (((toLowerStr message).data.flatMap nfdChar).filter
    (fun c => !isCombiningMark c)))

/-- Drop the second of two adjacent spaces, repeatedly. -/
def squeezeSpaces : List Char → List Char
  | [] => []
  | [c] => [c]
  | c :: d :: rest =>
    if c = ' ' ∧ d = ' ' then squeezeSpaces (d :: rest) else c :: squeezeSpaces (d :: rest)

/-- Source `replace(/\s+/g, ' ')`: collapse every whitespace run to one space
(each whitespace character becomes a space, adjacent spaces are merged). -/
def collapseWs (l : List Char) : List Char :=
  squeezeSpaces (l.map (fun c => if c.isWhitespace then ' ' else c))

/-- Source `CommandParser.normalizeName`: trim, collapse whitespace, title-case each
word. -/
def normalizeName (name : String) : String :=
  String.intercalate " "
    (((String.mk (collapseWs (trimStr name).data)).split (· = ' ')).map (fun word =>
      match word.data with
      | [] => ""
      | c :: rest => String.mk (toUpperChar c :: rest.map toLowerChar)))

/-- Source `CommandParser.isWeekday`: substring test against the weekday names. -/
def isWeekday (text : String) : Bool :=
  ["segunda", "terça", "terca", "quarta", "quinta", "sexta", "sábado", "sabado", "domingo",
    "seg", "ter", "qua", "qui", "sex", "sáb", "sab", "dom"].any
    (fun day => strContains (toLowerStr text) day)

/-- The `weekdayMap` of `CommandParser.getNextWeekday`. -/
def weekdayMap : List (String × Nat) :=
  [("segunda", 1), ("seg", 1),
   ("terça", 2), ("ter", 2), ("terca", 2),
   ("quarta", 3), ("qua", 3),
   ("quinta", 4), ("qui", 4),
   ("sexta", 5), ("sex", 5),
   ("sábado", 6), ("sáb", 6), ("sabado", 6), ("sab", 6),
   ("domingo", 0), ("dom", 0)]

/-- Source `CommandParser.getNextWeekday`: midnight of the next strictly-future
occurrence of the weekday (`none` models the `Invalid weekday` throw, which
the caller catches). -/
def getNextWeekday (now : Nat) (weekdayText : String) : Option Nat :=
  let normalizedWeekday := String.mk ((toLowerStr weekdayText).data.filter (fun c => !c.isWhitespace))
  match weekdayMap.lookup normalizedWeekday with
  | none => none
  | some targetDay =>
    let currentDay := dayOfWeek now
    let daysUntilTarget : Int := (targetDay : Int) - currentDay
    let daysUntilTarget := if daysUntilTarget ≤ 0 then daysUntilTarget + 7 else daysUntilTarget
    some ((dayNumber now + daysUntilTarget.toNat) * 1440)

/-- Source `targetDate.setHours(hour, minute, 0, 0)` on a midnight base, with the
`minutes default to 0` rule of `parseDateTime`; a non-numeric hour or minute
(JS `NaN`) poisons the date (`none`). -/
def applyTime (base : Nat) (time minutes : Option String) : Option Nat :=
  match time with
  | none => some base
  | some t =>
    match parseIntJS t, minutes with
    | none, _ => none
    | some hour, none => some (base + hour * 60)
    | some hour, some ms =>
      match parseIntJS ms with
      | none => none
      | some minute => some (base + hour * 60 + minute)

/-- Source `CommandParser.parseDateTime`. -/
def parseDateTime (now : Nat) (dateRef time minutes : Option String) : Option Nat :=
  match dateRef with
  | none => none
  | some dateRef =>
    if isWeekday dateRef then
      match getNextWeekday now dateRef with
      | none => none
      | some targetDate => applyTime targetDate time minutes
    else if dateRef = "hoje" then
      applyTime (midnightOf now) time minutes
    else if dateRef = "amanhã" ∨ dateRef = "amanha" then
      applyTime (midnightOf now + 1440) time minutes
    else if dateRef.data.contains '/' then
      match dateRef.splitOn "/" with
      | p0 :: p1 :: rest =>
        if p0 = "" ∨ p1 = "" then none
        else
          match parseIntJS p0, parseIntJS p1 with
          | some day, some month1 =>
            let year : Option Int := match rest with
              | [] => some (getFullYear now)
              | yr :: _ => (parseIntJS yr).map (fun y => (y : Int))
            match year with
            | none => none
            | some year =>
              match jsMakeDate year ((month1 : Int) - 1) day with
              | none => none
              | some targetDate => applyTime targetDate time minutes
          | _, _ => none
      | _ => none
    else none

/-- Source `CommandParser.extractTimeframe` (applied to the original utterance). -/
def extractTimeframe (text : String) : String :=
  let lowerText := toLowerStr text
  if strContains lowerText "semana" then "week"
  else if strContains lowerText "mês" ∨ strContains lowerText "mes" then "month"
  else if strContains lowerText "hoje" ∨ strContains lowerText "dia" then "day"
  else "week"

/-! ## Regular-expression engine

The parser's intent patterns are JS regexes.  They are embedded as syntax
trees over an exact backtracking matcher with JS semantics: leftmost
unanchored match, ordered alternation, greedy/lazy quantifiers, numbered
capture groups.  The matcher uses a fuel argument for termination; the fuel
chosen in `regexSearch` exceeds the maximal backtracking depth of the
embedded patterns on any input. -/

/-- Numbered capture groups (index 0 unused; a `none` entry is an
unmatched group, JS `undefined`). -/
abbrev Caps := List (Option (List Char))

/-- Record the contents of capture group `idx`. -/
def setCap (idx : Nat) (val : List Char) (caps : Caps) : Caps :=
  (caps ++ List.replicate (idx + 1 - caps.length) none).set idx (some val)

/-- Read capture group `i` as a string (`none` = JS `undefined`). -/
def capStr (caps : Caps) (i : Nat) : Option String :=
  ((caps.get? i).getD none).map String.mk

inductive Re where
  | eps
  | chr (c : Char)
  | cls (p : Char → Bool)
  | seq (a b : Re)
  | alt (a b : Re)
  | star (greedy : Bool) (a : Re)
  | group (idx : Nat) (a : Re)

/-- Backtracking matcher in continuation-passing style.  `k` receives the
remaining input and the captures accumulated so far; alternation prefers its
left branch, `star true` is greedy, `star false` lazy, and an iteration of a
quantifier that consumes nothing ends the loop (as in JS). -/
def matchRe (fuel : Nat) (re : Re) (s : List Char) (caps : Caps)
    (k : List Char → Caps → Option Caps) : Option Caps :=
  match fuel with
  | 0 => none
  | fuel + 1 =>
    match re with
    | .eps => k s caps
    | .chr c =>
      match s with
      | [] => none
      | x :: xs => if x = c then k xs caps else none
    | .cls p =>
      match s with
      | [] => none
      | x :: xs => if p x then k xs caps else none
    | .seq a b => matchRe fuel a s caps (fun s1 caps1 => matchRe fuel b s1 caps1 k)
    | .alt a b =>
      match matchRe fuel a s caps k with
      | some r => some r
      | none => matchRe fuel b s caps k
    | .star greedy a =>
      let again := fun s1 caps1 =>
        if s1.length < s.length then matchRe fuel (.star greedy a) s1 caps1 k else k s1 caps1
      if greedy then
        match matchRe fuel a s caps again with
        | some r => some r
        | none => k s caps
      else
        match k s caps with
        | some r => some r
        | none => matchRe fuel a s caps again
    | .group idx a =>
      matchRe fuel a s caps
        (fun s1 caps1 => k s1 (setCap idx (s.take (s.length - s1.length)) caps1))

/-- Attempt an anchored match at the start of `s`. -/
def searchAt (re : Re) (s : List Char) : Option Caps :=
  matchRe (200 * (s.length + 2)) re s [] (fun _ caps => some caps)

/-- JS `String.prototype.match` without the `g` flag: leftmost match. -/
def regexSearch (re : Re) (s : List Char) : Option Caps :=
  match searchAt re s with
  | some caps => some caps
  | none =>
    match s with
    | [] => none
    | _ :: xs => regexSearch re xs

/-! Combinators used to transcribe the JS regex syntax. -/

def Re.cat (l : List Re) : Re := l.foldr .seq .eps

def Re.orr : List Re → Re
  | [] => .cls (fun _ => false)
  | [r] => r
  | r :: rest => .alt r (Re.orr rest)

/-- A string literal. -/
def lit (s : String) : Re := .cat (s.data.map .chr)

/-- Regex `\s`. -/
def wsCls : Re := .cls Char.isWhitespace

/-- Regex `\s+` (greedy). -/
def wsP : Re := .seq wsCls (.star true wsCls)

/-- Regex `\s*` (greedy). -/
def wsS : Re := .star true wsCls

/-- Regex `\d`. -/
def digitCls : Re := .cls Char.isDigit

/-- Regex `(?:r)?` greedy. -/
def optG (r : Re) : Re := .alt r .eps

/-- Regex `r+?` (lazy plus). -/
def plusL (r : Re) : Re := .seq r (.star false r)

/-- Regex `[^\s]+` (greedy). -/
def notWsP : Re :=
  .seq (.cls (fun c => !c.isWhitespace)) (.star true (.cls (fun c => !c.isWhitespace)))

/-- Regex `\d{1,2}` (greedy). -/
def d12 : Re := .seq digitCls (optG digitCls)

/-- Regex `\d{2}`. -/
def d2 : Re := .seq digitCls digitCls

/-- Regex `\d{4}`. -/
def d4 : Re := .cat [digitCls, digitCls, digitCls, digitCls]

/-- Regex `\d{1,2}\/\d{1,2}(?:\/\d{4})?`. -/
def dateNum : Re := .cat [d12, .chr '/', d12, optG (.cat [.chr '/', d4])]

/-- Regex `(\d{1,2})(?::(\d{2}))?(?:h)?(?:oras)?` with configurable group numbers. -/
def timeG (gH gM : Nat) : Re :=
  .cat [.group gH d12, optG (.cat [.chr ':', .group gM d2]), optG (.chr 'h'), optG (lit "oras")]

/-- Regex `(?:agendar|marcar)`. -/
def schedVerb : Re := .orr [lit "agendar", lit "marcar"]

/-- Regex `(?:cancelar|desmarcar)`. -/
def cancelVerb : Re := .orr [lit "cancelar", lit "desmarcar"]

/-- Regex `(segunda|terca|quarta|quinta|sexta|sabado|domingo|seg|ter|qua|qui|sex|sab|dom)`. -/
def weekdayAlt : Re :=
  .orr [lit "segunda", lit "terca", lit "quarta", lit "quinta", lit "sexta", lit "sabado",
    lit "domingo", lit "seg", lit "ter", lit "qua", lit "qui", lit "sex", lit "sab", lit "dom"]

/-- The accented weekday alternation of the block pattern. -/
def weekdayAltAcc : Re :=
  .orr [lit "segunda", lit "terça", lit "quarta", lit "quinta", lit "sexta", lit "sábado",
    lit "domingo", lit "seg", lit "ter", lit "qua", lit "qui", lit "sex", lit "sáb", lit "dom"]

/-- Regex `[a-zaçeeioouu\s]` (the letters beyond `a-z` reduce to `ç`). -/
def nameCls1 : Re :=
  .cls (fun c => (decide ('a' ≤ c) && decide (c ≤ 'z')) || c == 'ç' || c.isWhitespace)

/-- Regex `[a-záãçéêíóôõú\s]`. -/
def nameCls2 : Re :=
  .cls (fun c => (decide ('a' ≤ c) && decide (c ≤ 'z')) ||
    ['á', 'ã', 'ç', 'é', 'ê', 'í', 'ó', 'ô', 'õ', 'ú'].contains c || c.isWhitespace)

/-- Regex `([^\s]+(?:\s+[^\s]+)*?)` — group 1 of the `dia` patterns. -/
def nameGroupAny : Re := .group 1 (.seq notWsP (.star false (.seq wsP notWsP)))

/-! The ordered intent patterns of `CommandParser.initializePatterns`. -/

def schedRe1 : Re := .cat [schedVerb, wsP, nameGroupAny, wsP, optG (.cat [lit "no", wsP]),
  lit "dia", wsP, .group 2 dateNum, wsP, .orr [lit "às", lit "as"], wsP, timeG 3 4]

def schedRe2 : Re := .cat [schedVerb, wsP, .group 1 (plusL nameCls1), wsP, lit "na", wsP,
  .group 2 weekdayAlt, wsS, lit "feira", wsP, .orr [lit "às", lit "as"], wsP, timeG 3 4]

def schedRe3 : Re := .cat [schedVerb, wsP, .group 1 (plusL nameCls1), wsP,
  .group 2 (lit "amanha"), wsP, lit "as", wsP, timeG 3 4]

def schedRe4 : Re := .cat [schedVerb, wsP, .group 1 (plusL nameCls1), wsP,
  .group 2 (lit "hoje"), wsP, lit "as", wsP, timeG 3 4]

def schedRe5 : Re := .cat [schedVerb, wsP, .group 1 (plusL nameCls1), wsP,
  optG (.cat [lit "na", wsP]), optG (.cat [lit "próxima", wsP]), .group 2 weekdayAlt,
  optG (.cat [wsS, lit "feira"]), wsP, optG (.cat [lit "às", wsP]), timeG 3 4]

def schedRe6 : Re := .cat [schedVerb, wsP, .group 1 (plusL nameCls1), wsP,
  .group 2 (.orr [lit "hoje", lit "amanha"]), wsP, optG (.cat [lit "as", wsP]), timeG 3 4]

def schedRe7 : Re := .cat [schedVerb, wsP, .group 1 (plusL nameCls2), wsP,
  .group 2 dateNum, wsP, optG (.cat [lit "às", wsP]), timeG 3 4]

def cancelRe1 : Re := .cat [cancelVerb, wsP, nameGroupAny, wsP, optG (.cat [lit "no", wsP]),
  lit "dia", wsP, .group 2 dateNum, wsP, .orr [lit "às", lit "as"], wsP, timeG 3 4]

def cancelRe2 : Re := .cat [cancelVerb, wsP, nameGroupAny, wsP, optG (.cat [lit "no", wsP]),
  lit "dia", wsP, .group 2 dateNum]

def cancelRe3 : Re := .cat [cancelVerb, wsP, .group 1 (plusL nameCls1), wsP,
  optG (.cat [lit "na", wsP]), .group 2 weekdayAlt, optG (.cat [wsS, lit "feira"]), wsP,
  .orr [lit "às", lit "as"], wsP, timeG 3 4]

def cancelRe4 : Re := .cat [cancelVerb, wsP, .group 1 (plusL nameCls1), wsP, lit "na", wsP,
  .group 2 weekdayAlt, wsS, lit "feira"]

def cancelRe5 : Re := .cat [cancelVerb, wsP, .group 1 (plusL nameCls1), wsP,
  optG (.cat [lit "na", wsP]), optG (.cat [lit "próxima", wsP]), .group 2 weekdayAlt,
  optG (.cat [wsS, lit "feira"])]

def cancelRe6 : Re := .cat [cancelVerb, wsP, .group 1 (plusL nameCls2), wsP,
  .group 2 (.orr [lit "hoje", lit "amanhã"])]

def cancelRe7 : Re := .cat [cancelVerb, wsP, .group 1 (plusL nameCls2), wsP, .group 2 dateNum]

def viewRe1 : Re := .cat [.orr [lit "mostrar", lit "ver", lit "exibir"], wsP,
  optG (.cat [lit "minha", wsP]), .orr [lit "agenda", lit "semana", lit "dia"]]

def viewRe2 : Re := .cat [lit "agenda", wsP, optG (.cat [lit "da", wsP]),
  .group 1 (.orr [lit "semana", lit "hoje", lit "amanhã"])]

def viewRe3 : Re := .cat [optG (.cat [lit "como", wsP, lit "está", wsP]),
  optG (.cat [lit "minha", wsP]), .orr [lit "semana", lit "hoje", lit "amanhã"]]

def blockRe1 : Re := .cat [.orr [lit "bloquear", .cat [lit "não", wsP, lit "atender"]], wsP,
  optG (.cat [lit "na", wsP]), .group 1 weekdayAltAcc, optG (.cat [wsS, lit "feira"]), wsS,
  optG (.group 2 (.orr [lit "manhã", lit "tarde", lit "noite"]))]

def blockRe2 : Re := .cat [lit "bloquear", wsP,
  .group 1 (.orr [lit "hoje", lit "amanhã", .cat [d12, .chr '/', d12]]), wsP,
  optG (.cat [lit "das", wsP]), .group 2 d12, optG (.cat [.chr ':', .group 3 d2]),
  optG (.chr 'h'), wsS, .orr [lit "às", lit "até"], wsS, .group 4 d12,
  optG (.cat [.chr ':', .group 5 d2]), optG (.chr 'h')]

def helpRe1 : Re := .orr [lit "ajuda", lit "help", lit "comandos", .cat [lit "como", wsP, lit "usar"]]

def helpRe2 : Re := .cat [lit "o", wsP, lit "que", wsP,
  .orr [lit "posso", .cat [lit "você", wsP, lit "pode"]], wsP, lit "fazer"]

/-! ## CommandParser: patterns, extractors and `parse` -/

structure CommandPattern where
  intent : String
  patterns : List Re
  extract : Caps → String → ParsedCommand

/-- The `extract` of the schedule pattern group. -/
def scheduleExtract (now : Nat) (caps : Caps) (originalText : String) : ParsedCommand :=
  let datetime := parseDateTime now (capStr caps 2) (capStr caps 3) (capStr caps 4)
  { action := "schedule"
    patient := match capStr caps 1 with
      | some s => if s = "" then none else some (normalizeName s)
      | none => none
    datetime
    confidence := if datetime.isSome then 9/10 else 3/10
    originalText }

/-- The `extract` of the cancel pattern group, with its capture-position
disambiguation (`match[3]` is a time only when it is one or two digits). -/
def cancelExtract (now : Nat) (caps : Caps) (originalText : String) : ParsedCommand :=
  let m3 := capStr caps 3
  let m3IsTime := match m3 with
    | some s => s ≠ "" && decide (s.length ≤ 2) && s.data.all Char.isDigit
    | none => false
  let datetime :=
    if m3IsTime then parseDateTime now (capStr caps 2) m3 (capStr caps 4)
    else parseDateTime now (capStr caps 2) none none
  { action := "cancel"
    patient := match capStr caps 1 with
      | some s => if s = "" then none else some (normalizeName s)
      | none => none
    datetime
    confidence := if datetime.isSome then 17/20 else 3/10
    originalText }

/-- The `extract` of the view pattern group. -/
def viewExtract (_caps : Caps) (originalText : String) : ParsedCommand :=
  { action := "view"
    timeframe := some (extractTimeframe originalText)
    confidence := 19/20
    originalText }

/-- The `extract` of the block pattern group. -/
def blockExtract (now : Nat) (caps : Caps) (originalText : String) : ParsedCommand :=
  let datetime := parseDateTime now (capStr caps 1) (capStr caps 2) (capStr caps 3)
  { action := "block"
    datetime
    confidence := if datetime.isSome then 4/5 else 3/10
    originalText }

/-- The `extract` of the help pattern group. -/
def helpExtract (_caps : Caps) (originalText : String) : ParsedCommand :=
  { action := "help", confidence := 1, originalText }

/-- Source `CommandParser.initializePatterns`, in source order. -/
def commandPatterns (now : Nat) : List CommandPattern :=
  [{ intent := "schedule"
     patterns := [schedRe1, schedRe2, schedRe3, schedRe4, schedRe5, schedRe6, schedRe7]
     extract := scheduleExtract now },
   { intent := "cancel"
     patterns := [cancelRe1, cancelRe2, cancelRe3, cancelRe4, cancelRe5, cancelRe6, cancelRe7]
     extract := cancelExtract now },
   { intent := "view_agenda"
     patterns := [viewRe1, viewRe2, viewRe3]
     extract := viewExtract },
   { intent := "block"
     patterns := [blockRe1, blockRe2]
     extract := blockExtract now },
   { intent := "help"
     patterns := [helpRe1, helpRe2]
     extract := helpExtract }]

/-- First matching regex of a pattern group. -/
def firstRegexMatch (regexes : List Re) (normalized : List Char) : Option Caps :=
  match regexes with
  | [] => none
  | r :: rest =>
    match regexSearch r normalized with
    | some caps => some caps
    | none => firstRegexMatch rest normalized

/-- The pattern-group loop of `CommandParser.parse`: first match across the
ordered groups wins. -/
def tryCommandPatterns (pats : List CommandPattern) (normalized : List Char)
    (originalText : String) : Option ParsedCommand :=
  match pats with
  | [] => none
  | p :: rest =>
    match firstRegexMatch p.patterns normalized with
    | some caps => some (p.extract caps originalText)
    | none => tryCommandPatterns rest normalized originalText

/-- Source `CommandParser.parse`: normalize, try the ordered patterns, fall back to
the unknown command. -/
def parse (now : Nat) (message : String) : ParsedCommand :=
  let normalizedMessage := normalizeMessage message
  match tryCommandPatterns (commandPatterns now) normalizedMessage.data message with
  | some cmd => cmd
  | none => { action := "unknown", confidence := 0, originalText := message }

/-! ## SessionManager (src/services/session-manager.ts)

The redis store is modelled per conversation key: `SessionStore` is the
(possibly absent) stored record for one key, together with the deadline at
which the redis TTL set by the last `setex` fires.  `getContext` additionally
enforces the `expiresAt` field recorded inside the context, deleting the
record when it has passed. -/

inductive ConversationStep where
  | COMMAND_PARSING
  | AWAITING_CONFIRMATION
  | AWAITING_PATIENT_REGISTRATION
  | EXECUTION
  | COMPLETED
deriving DecidableEq, Repr

structure ConversationData where
  patientName : Option String := none
  proposedDatetime : Option Nat := none
  sessionId : Option String := none
  conflicts : Option (List String) := none
  pendingConfirmation : Option Bool := none
  lastMessage : Option String := none
deriving DecidableEq, Repr

structure ConversationContext where
  psychologistId : String
  currentCommand : Option String := none
  step : ConversationStep
  data : ConversationData
  createdAt : Nat
  expiresAt : Nat
deriving DecidableEq, Repr

/-- A stored record: the serialized context plus the minute at which the
redis TTL of the last `setex` expires. -/
structure StoredContext where
  context : ConversationContext
  redisExpireAt : Nat
deriving DecidableEq, Repr

/-- The conversation-state store for a single conversation key. -/
abbrev SessionStore := Option StoredContext

/-- Source `defaultExpirySeconds = 300`, in minutes. -/
def defaultExpiryMinutes : Nat := 5

/-- Source `SessionManager.setContext`: `setex` with the default TTL. -/
def setContext (now : Nat) (context : ConversationContext) (_store : SessionStore) :
    SessionStore :=
  some ⟨context, now + defaultExpiryMinutes⟩

/-- Source `SessionManager.clearContext`. -/
def clearContext (_store : SessionStore) : SessionStore := none

/-- Source `SessionManager.getContext`: redis returns nothing once the TTL has
fired; an entry whose recorded `expiresAt` has passed is deleted and treated
as absent. -/
def getContext (now : Nat) (store : SessionStore) :
    Option ConversationContext × SessionStore :=
  match store with
  | none => (none, none)
  | some entry =>
    if entry.redisExpireAt ≤ now then (none, store)
    else if entry.context.expiresAt < now then (none, clearContext store)
    else (some entry.context, store)

/-- The `Partial<ConversationContext>` updates accepted by
`SessionManager.updateContext` (a `none` field is absent from the update;
`data` is replaced wholesale, matching how every call site passes a full
`{...context.data, ...}` object). -/
structure ContextUpdates where
  step : Option ConversationStep := none
  currentCommand : Option String := none
  data : Option ConversationData := none
  expiresAt : Option Nat := none
deriving DecidableEq, Repr

/-- Source `SessionManager.updateContext`: merge the updates over the current
context and re-`setex`; absent or expired state short-circuits to `null`. -/
def updateContext (now : Nat) (updates : ContextUpdates) (store : SessionStore) :
    Option ConversationContext × SessionStore :=
  match getContext now store with
  | (none, store1) => (none, store1)
  | (some currentContext, store1) =>
    let updatedContext : ConversationContext :=
      { psychologistId := currentContext.psychologistId
        currentCommand := updates.currentCommand.or currentContext.currentCommand
        step := updates.step.getD currentContext.step
        data := updates.data.getD currentContext.data
        createdAt := currentContext.createdAt
        expiresAt := updates.expiresAt.getD currentContext.expiresAt }
    (some updatedContext, setContext now updatedContext store1)

/-- Source `SessionManager.createContext`. -/
def createContext (now : Nat) (psychologistId : String) (command : Option String)
    (store : SessionStore) : ConversationContext × SessionStore :=
  let context : ConversationContext :=
    { psychologistId
      currentCommand := command
      step := .COMMAND_PARSING
      data := {}
      createdAt := now
      expiresAt := now + defaultExpiryMinutes }
  (context, setContext now context store)

/-- Source `SessionManager.moveToStep`. -/
def moveToStep (now : Nat) (step : ConversationStep) (data : Option ConversationData)
    (store : SessionStore) : Option ConversationContext × SessionStore :=
  updateContext now { step := some step, data } store

/-! ## ResponseGenerator (src/services/response-generator.ts)

Only the pieces the message processor uses are transcribed.  `formatDate`
needs the evaluation instant (for `Hoje`/`Amanhã`). -/

def weekdayLongName (dow : Nat) : String :=
  (["domingo", "segunda-feira", "terça-feira", "quarta-feira", "quinta-feira", "sexta-feira",
    "sábado"].get? dow).getD "domingo"

/-- Source `toLocaleDateString('pt-BR', {weekday:'long', day:'2-digit', month:'2-digit'})`. -/
def localeDateStr (t : Nat) : String :=
  let civil := civilFromDays (dayNumber t)
  weekdayLongName (dayOfWeek t) ++ ", " ++ pad2 civil.2.2.toNat ++ "/" ++ pad2 civil.2.1.toNat

/-- Source `ResponseGenerator.formatDate`. -/
def formatDate (now t : Nat) : String :=
  if dayNumber t = dayNumber now then "Hoje"
  else if dayNumber t = dayNumber now + 1 then "Amanhã"
  else localeDateStr t

/-- Source `ResponseGenerator.getWeekdayName`. -/
def getWeekdayName (t : Nat) : String :=
  (["domingo", "segunda", "terça", "quarta", "quinta", "sexta", "sábado"].get?
    (dayOfWeek t)).getD "domingo"

def generateWelcomeMessage : String :=
  "👋 Olá! Sou a Clara, sua assistente de agendamento.\n\nPreciso configurar seu perfil primeiro:\n• Qual seu nome completo?\n• Quais seus horários de trabalho? (ex: \"Seg-Sex 9h-18h\")\n\nDigite suas informações para começarmos!"

def generateScheduleConfirmation (now : Nat) (patientName : String) (datetime : Nat)
    (duration : Nat := 50) : String :=
  "📅 Agendando " ++ patientName ++ ":\n\n• Data: " ++ formatDate now datetime ++
    "\n• Horário: " ++ formatTime datetime ++ " - " ++ formatTime (datetime + duration) ++
    "\n• Duração: " ++ toString duration ++ " minutos\n\nConfirmar agendamento? (Sim/Não)"

def generateScheduleSuccess (now : Nat) (patientName : String) (datetime : Nat) : String :=
  "✅ Sessão agendada com sucesso!\n\n👤 Paciente: " ++ patientName ++ "\n📅 Data: " ++
    formatDate now datetime ++ "\n⏰ Horário: " ++ formatTime datetime ++
    "\n\n📲 Adicionado ao Google Calendar"

def generateNewPatientConfirmation (patientName : String) : String :=
  "👤 Não encontrei " ++ patientName ++
    " nos seus pacientes.\n\nDeseja adicionar como novo paciente? (Sim/Não)"

def generateConflictMessage (now : Nat) (conflict : ConflictInfo) (patientName : String)
    (datetime : Nat) : String :=
  let base := "⚠️ Conflito detectado!\n\n" ++
    (match conflict.conflictingSession with
      | some cs => "Você já tem " ++ cs.patientName ++ " agendado das " ++ cs.startTime ++
          " às " ++ cs.endTime
      | none => "Horário indisponível para agendamento")
  match conflict.availableSlots with
  | some slots =>
    if slots.length > 0 then
      let base := base ++ "\n\n📅 Horários disponíveis em " ++ formatDate now datetime ++ ":\n" ++
        String.join ((slots.take 4).map (fun slot => "• " ++ slot.formatted ++ " ✅\n"))
      let base := if slots.length > 4 then
          base ++ "\n... e mais " ++ toString (slots.length - 4) ++ " horários"
        else base
      match slots with
      | slot0 :: _ =>
        base ++ "\n💡 Tente: \"Agendar " ++ patientName ++ " " ++ getWeekdayName datetime ++
          " " ++ formatTime slot0.start ++ "\""
      | [] => base
    else base
  | none => base

def generateCancelConfirmation (now : Nat) (patientName : String) (datetime : Nat)
    (sessionTime : Option String) : String :=
  "❌ Cancelar sessão?\n\n👤 Paciente: " ++ patientName ++ "\n📅 Data: " ++
    formatDate now datetime ++
    (match sessionTime with
      | some s => "\n⏰ Horário: " ++ s
      | none => "") ++ "\n\nConfirmar cancelamento? (Sim/Não)"

def generateCancelSuccess (now : Nat) (patientName : String) (datetime : Nat) : String :=
  "✅ Sessão cancelada!\n\n👤 " ++ patientName ++ "\n📅 " ++ formatDate now datetime ++
    "\n\n🗓️ Removido do Google Calendar\nHorário liberado para novos agendamentos"

def generateErrorMessage (error : String) : String :=
  "❌ Ops! " ++ error ++ "\n\n💡 Precisa de ajuda? Digite \"ajuda\" para ver os comandos disponíveis."

def generateUnknownCommandMessage : String :=
  "🤔 Não entendi sua mensagem.\n\n💡 Você pode tentar:\n• \"Agendar [nome] [dia] [hora]\"\n• \"Cancelar [nome] [dia]\"\n• \"Mostrar agenda\"\n• \"Ajuda\" para mais opções"

def generateHelpMessage : String :=
  "🆘 **Comandos Disponíveis**\n\n**📅 Agendamento:**\n• \"Agendar Ana quinta 14h\"\n• \"Marcar João segunda 10:30\"\n• \"Agendar Maria 25/01 15h\"\n\n**❌ Cancelamento:**\n• \"Cancelar Ana quinta\"\n• \"Desmarcar João amanhã\"\n\n**📋 Visualizar:**\n• \"Mostrar semana\"\n• \"Ver agenda hoje\"\n• \"Minha agenda\"\n\n**🚫 Bloquear:**\n• \"Bloquear sexta tarde\"\n• \"Não atender quinta 14h às 16h\"\n\n💬 Fale naturalmente comigo!"

def generateValidationErrors (errors : List String) : String :=
  match errors with
  | [e] => "❌ " ++ e
  | _ =>
    "❌ Encontrei alguns problemas:\n\n" ++
      String.join (errors.mapIdx (fun index error =>
        toString (index + 1) ++ ". " ++ error ++ "\n"))

def generateConfirmationPrompt : String :=
  "\n\n💬 Responda com \"Sim\" ou \"Não\""

def getPeriodName (timeframe : String) (preposition : Bool := false) : String :=
  if timeframe = "day" then (if preposition then "hoje" else "de hoje")
  else if timeframe = "week" then (if preposition then "nesta semana" else "da semana")
  else if timeframe = "month" then (if preposition then "neste mês" else "do mês")
  else "do período"

/-- Source `groupSessionsByDate`: group in first-seen key order (JS object
insertion order), sessions inside a key sorted by time. -/
def groupSessionsByDate (now : Nat) (sessions : List (Session × Patient)) :
    List (String × List (Session × Patient)) :=
  let keys := (sessions.map (fun s => formatDate now s.1.scheduledAt)).dedup
  keys.map (fun key =>
    (key, (sessions.filter (fun s => formatDate now s.1.scheduledAt = key)).mergeSort
      (fun a b => a.1.scheduledAt ≤ b.1.scheduledAt)))

def generateAgendaView (now : Nat) (sessions : List (Session × Patient))
    (timeframe : String) : String :=
  if sessions.length = 0 then
    "📅 Sua agenda " ++ getPeriodName timeframe ++
      "\n\n🆓 Nenhuma sessão agendada\n\nQue tal aproveitar para agendar novos pacientes?"
  else
    let body :=
      if timeframe = "day" then
        String.join (sessions.map (fun s =>
          "• " ++ formatTime s.1.scheduledAt ++ " - " ++ s.2.fullName ++ "\n"))
      else
        String.join ((groupSessionsByDate now sessions).map (fun g =>
          "**" ++ g.1 ++ "**\n" ++
            String.join (g.2.map (fun s =>
              "• " ++ formatTime s.1.scheduledAt ++ " - " ++ s.2.fullName ++ "\n")) ++ "\n"))
    "📅 Sua agenda " ++ getPeriodName timeframe ++ "\n\n" ++ body ++ "\nTotal: " ++
      toString sessions.length ++ " sessão" ++
      (if sessions.length ≠ 1 then "ões" else "") ++ " " ++ getPeriodName timeframe true

/-! ## MessageProcessor (src/services/message-processor.ts)

The processor threads the persistent store and the (single-key) session
store through every handler; `now` is the evaluation instant of the request.
The prisma error paths of the execute helpers (unknown session id, invalid
stored data) surface as the `catch` branches of the source. -/

structure ProcessingResult where
  success : Bool
  response : String
  context : Option ConversationContext := none
  error : Option String := none
deriving DecidableEq, Repr

/-- The mutable state a request runs against: the database and the
conversation-state record of the sender's key. -/
structure ProcState where
  db : DB
  store : SessionStore

/-- Source `MessageProcessor.isPositiveResponse`: case-insensitive substring test
against the fixed keyword list. -/
def isPositiveResponse (message : String) : Bool :=
  let positive := ["sim", "s", "yes", "y", "ok", "confirmar", "confirmo", "confirma"]
  let normalized := trimStr (toLowerStr message)
  positive.any (fun word => strContains normalized word)

/-- Source `MessageProcessor.getDateRange`. -/
def getDateRange (now : Nat) (timeframe : String) : Nat × Nat :=
  if timeframe = "day" then
    (midnightOf now, midnightOf now + 1439)
  else if timeframe = "week" then
    let dow := dayOfWeek now
    let startDay := if dow = 0 then dayNumber now - 6 else dayNumber now + 1 - dow
    let startDayOfMonth := (civilFromDays startDay).2.2
    let civilNow := civilFromDays (dayNumber now)
    let endDay := daysFromCivil civilNow.1 civilNow.2.1 1 + (startDayOfMonth + 6) - 1
    (startDay * 1440, (endDay.toNat * 1440) + 1439)
  else
    let civilNow := civilFromDays (dayNumber now)
    let firstOfMonth := daysFromCivil civilNow.1 civilNow.2.1 1
    let lastOfMonth := daysFromCivil civilNow.1 (civilNow.2.1 + 1) 1 - 1
    (firstOfMonth.toNat * 1440, lastOfMonth.toNat * 1440 + 1439)

/-- Source `MessageProcessor.findPsychologistByWhatsApp`. -/
def findPsychologistByWhatsApp (whatsappNumber : String) (db : DB) : Option Psychologist :=
  db.psychologists.find? (fun p => p.whatsappNumber == whatsappNumber)

/-- Source `MessageProcessor.logMessage` (best effort, always succeeds here). -/
def logMessage (psychologistIdOrNumber : String) (messageType content : String) (db : DB) :
    DB :=
  let psychologistId :=
    if messageType = "incoming" then
      (findPsychologistByWhatsApp psychologistIdOrNumber db).map (fun p => p.id)
    else some psychologistIdOrNumber
  { db with messageLogs := db.messageLogs ++ [⟨psychologistId, messageType, content⟩] }

/-- Source `MessageProcessor.handleScheduleCommand`. -/
def handleScheduleCommand (command : ParsedCommand) (context : ConversationContext)
    (_whatsappNumber : String) (now : Nat) (st : ProcState) : ProcessingResult × ProcState :=
  let validation := validateScheduleCommand command context.psychologistId st.db now
  if !validation.isValid then
    if validation.conflicts.hasConflict then
      ({ success := true
         response := generateConflictMessage now validation.conflicts (command.patient.getD "")
           (command.datetime.getD 0)
         context := some context }, st)
    else
      ({ success := true
         response := generateValidationErrors validation.errors
         context := some context }, st)
  else if validation.patient.isNone then
    let (updatedContext, store1) := updateContext now
      { step := some .AWAITING_PATIENT_REGISTRATION
        data := some { context.data with
          patientName := command.patient
          proposedDatetime := command.datetime
          pendingConfirmation := some true } } st.store
    ({ success := true
       response := generateNewPatientConfirmation (command.patient.getD "")
       context := updatedContext }, { st with store := store1 })
  else
    let (updatedContext, store1) := updateContext now
      { step := some .AWAITING_CONFIRMATION
        currentCommand := some "schedule"
        data := some { context.data with
          patientName := command.patient
          proposedDatetime := command.datetime } } st.store
    ({ success := true
       response := generateScheduleConfirmation now (command.patient.getD "")
           (command.datetime.getD 0) ++ generateConfirmationPrompt
       context := updatedContext }, { st with store := store1 })

/-- Source `MessageProcessor.handleCancelCommand`. -/
def handleCancelCommand (command : ParsedCommand) (context : ConversationContext)
    (_whatsappNumber : String) (now : Nat) (st : ProcState) : ProcessingResult × ProcState :=
  let validation := validateCancelCommand command context.psychologistId st.db
  match validation.session, validation.isValid with
  | some (session, patient), true =>
    let sessionEndTime := session.scheduledAt + session.durationMinutes
    let formattedTime := formatTime session.scheduledAt ++ " - " ++ formatTime sessionEndTime
    let (updatedContext, store1) := updateContext now
      { step := some .AWAITING_CONFIRMATION
        currentCommand := some "cancel"
        data := some { context.data with
          sessionId := some session.id
          patientName := some patient.fullName
          proposedDatetime := some session.scheduledAt } } st.store
    ({ success := true
       response := generateCancelConfirmation now patient.fullName session.scheduledAt
           (some formattedTime) ++ generateConfirmationPrompt
       context := updatedContext }, { st with store := store1 })
  | _, _ =>
    ({ success := true
       response := generateValidationErrors validation.errors
       context := some context }, st)

/-- Source `MessageProcessor.handleViewCommand`. -/
def handleViewCommand (command : ParsedCommand) (context : ConversationContext)
    (now : Nat) (st : ProcState) : ProcessingResult × ProcState :=
  let timeframe := command.timeframe.getD "week"
  let range := getDateRange now timeframe
  let sessions := ((st.db.sessions.filter (fun s =>
      s.psychologistId == context.psychologistId && range.1 ≤ s.scheduledAt &&
        s.scheduledAt ≤ range.2 && s.status == "scheduled")).mergeSort
    (fun a b => a.scheduledAt ≤ b.scheduledAt)).filterMap (fun s =>
      (st.db.patients.find? (fun p => p.id == s.patientId)).map (fun p => (s, p)))
  ({ success := true
     response := generateAgendaView now sessions timeframe
     context := some context }, st)

/-- Source `MessageProcessor.executeScheduleCommand`. -/
def executeScheduleCommand (context : ConversationContext) (_whatsappNumber : String)
    (now : Nat) (st : ProcState) : ProcessingResult × ProcState :=
  match context.data.proposedDatetime with
  | none =>
    ({ success := false
       response := generateErrorMessage "Erro ao agendar sessão."
       context := some context }, st)
  | some datetime =>
    match findPatientByName (context.data.patientName.getD "") context.psychologistId st.db with
    | none =>
      ({ success := false
         response := generateErrorMessage "Paciente não encontrado."
         context := some context }, st)
    | some patient =>
      let psychologist := st.db.psychologists.find? (fun p => p.id == context.psychologistId)
      let duration := match psychologist with
        | some p => if p.sessionDurationMinutes = 0 then 50 else p.sessionDurationMinutes
        | none => 50
      let newSession : Session :=
        { id := "session-" ++ toString st.db.sessions.length
          psychologistId := context.psychologistId
          patientId := patient.id
          scheduledAt := datetime
          durationMinutes := duration
          status := "scheduled" }
      let db1 := { st.db with sessions := st.db.sessions ++ [newSession] }
      ({ success := true
         response := generateScheduleSuccess now patient.fullName datetime
         context := none }, { db := db1, store := clearContext st.store })

/-- Source `MessageProcessor.executeCancelCommand`. -/
def executeCancelCommand (context : ConversationContext) (_whatsappNumber : String)
    (now : Nat) (st : ProcState) : ProcessingResult × ProcState :=
  let sessionId := context.data.sessionId.getD ""
  if st.db.sessions.any (fun s => s.id == sessionId) then
    let db1 := { st.db with sessions := st.db.sessions.map (fun s =>
      if s.id == sessionId then { s with status := "cancelled" } else s) }
    let response := generateCancelSuccess now (context.data.patientName.getD "")
      (context.data.proposedDatetime.getD 0)
    ({ success := true, response, context := none },
      { db := db1, store := clearContext st.store })
  else
    ({ success := false
       response := generateErrorMessage "Erro ao cancelar sessão."
       context := some context }, st)

/-- Source `MessageProcessor.handleConfirmation`. -/
def handleConfirmation (context : ConversationContext) (message : String)
    (whatsappNumber : String) (now : Nat) (st : ProcState) : ProcessingResult × ProcState :=
  if !isPositiveResponse message then
    ({ success := true
       response := "❌ Operação cancelada."
       context := none }, { st with store := clearContext st.store })
  else if context.currentCommand = some "schedule" then
    executeScheduleCommand context whatsappNumber now st
  else if context.currentCommand = some "cancel" then
    executeCancelCommand context whatsappNumber now st
  else
    ({ success := false
       response := generateErrorMessage "Comando não reconhecido."
       context := some context }, st)

/-- Source `MessageProcessor.handlePatientRegistration`. -/
def handlePatientRegistration (context : ConversationContext) (message : String)
    (_whatsappNumber : String) (now : Nat) (st : ProcState) : ProcessingResult × ProcState :=
  if !isPositiveResponse message then
    ({ success := true
       response := "❌ Paciente não foi criado. Operação cancelada."
       context := none }, { st with store := clearContext st.store })
  else
    match context.data.patientName with
    | none =>
      ({ success := false
         response := generateErrorMessage "Erro ao criar paciente."
         context := some context }, st)
    | some patientName =>
      let patient : Patient :=
        { id := "patient-" ++ toString st.db.patients.length
          psychologistId := context.psychologistId
          fullName := patientName }
      let db1 := { st.db with patients := st.db.patients ++ [patient] }
      let (updatedContext, store1) := updateContext now
        { step := some .AWAITING_CONFIRMATION, currentCommand := some "schedule" } st.store
      let datetime := context.data.proposedDatetime.getD 0
      ({ success := true
         response := "✅ Paciente " ++ patient.fullName ++ " criado!\n\n" ++
           generateScheduleConfirmation now patient.fullName datetime ++
           generateConfirmationPrompt
         context := updatedContext }, { db := db1, store := store1 })

/-- Source `MessageProcessor.handleCommandParsing`. -/
def handleCommandParsing (context : ConversationContext) (message : String)
    (whatsappNumber : String) (now : Nat) (st : ProcState) : ProcessingResult × ProcState :=
  let command := parse now message
  if command.action = "schedule" then
    handleScheduleCommand command context whatsappNumber now st
  else if command.action = "cancel" then
    handleCancelCommand command context whatsappNumber now st
  else if command.action = "view" then
    handleViewCommand command context now st
  else if command.action = "help" then
    ({ success := true
       response := generateHelpMessage
       context := some context }, st)
  else
    ({ success := true
       response := generateUnknownCommandMessage
       context := some context }, st)

/-- Source `MessageProcessor.processMessageByStep`. -/
def processMessageByStep (context : ConversationContext) (message : String)
    (whatsappNumber : String) (now : Nat) (st : ProcState) : ProcessingResult × ProcState :=
  match context.step with
  | .COMMAND_PARSING => handleCommandParsing context message whatsappNumber now st
  | .AWAITING_CONFIRMATION => handleConfirmation context message whatsappNumber now st
  | .AWAITING_PATIENT_REGISTRATION =>
    handlePatientRegistration context message whatsappNumber now st
  | _ => handleCommandParsing context message whatsappNumber now st

/-- Source `MessageProcessor.processMessage`. -/
def processMessage (whatsappNumber : String) (message : String) (now : Nat)
    (st : ProcState) : ProcessingResult × ProcState :=
  let db0 := logMessage whatsappNumber "incoming" message st.db
  let (ctx0, store0) := getContext now st.store
  match ctx0 with
  | none =>
    match findPsychologistByWhatsApp whatsappNumber db0 with
    | none =>
      let db1 := logMessage whatsappNumber "response" generateWelcomeMessage db0
      ({ success := true, response := generateWelcomeMessage }, ⟨db1, store0⟩)
    | some psychologist =>
      let (context, store1) := createContext now psychologist.id none store0
      let (result, st1) := processMessageByStep context message whatsappNumber now
        ⟨db0, store1⟩
      let db2 := logMessage context.psychologistId "response" result.response st1.db
      (result, { st1 with db := db2 })
  | some context =>
    let (result, st1) := processMessageByStep context message whatsappNumber now
      ⟨db0, store0⟩
    let db2 := logMessage context.psychologistId "response" result.response st1.db
    (result, { st1 with db := db2 })

/-! ## Concrete configurations and specification-side definitions used by the
theorems below -/

/-- An owner with weekday working hours `09:00-17:00` and 50-minute
sessions, used by several concrete instances below. -/
def psyWH : Psychologist :=
  ⟨"psy1", "+5511999990000", "Dr. Teste", 50,
    [("seg", .range 9 0 17 0), ("ter", .range 9 0 17 0), ("qua", .range 9 0 17 0),
     ("qui", .range 9 0 17 0), ("sex", .range 9 0 17 0), ("sab", .closed), ("dom", .closed)]⟩

/-- A store holding `psyWH` and one patient and no appointments. -/
def dbWH : DB := ⟨[psyWH], [⟨"pat1", "psy1", "Ana"⟩], [], [], []⟩

/-- A parsed schedule command for Thursday 16:11 (end 17:01 with a
50-minute session). -/
def cmdLate : ParsedCommand :=
  { action := "schedule", patient := some "Ana", datetime := some (7 * 1440 + 16 * 60 + 11)
    confidence := 9/10, originalText := "agendar ana quinta 16:11" }

/-- A data-only context update, as performed by every `updateContext` call
site of the orchestrator (none of them touches `expiresAt`). -/
def dataOnlyUpdate : ContextUpdates := { data := some { lastMessage := some "oi" } }

/-- The store used by the expired-state witness. -/
def dbNoState : DB := ⟨[psyWH], [⟨"pat1", "psy1", "Ana"⟩], [], [], []⟩

/-- A conversation context created at minute 0, hence expired at any read
past minute 5. -/
def ctxStale : ConversationContext :=
  ⟨"psy1", none, .COMMAND_PARSING, {}, 0, 5⟩

/-- One owner store with a single scheduled session `[960, 990)`. -/
def dbConf : DB :=
  ⟨[], [⟨"patJ", "psy1", "João"⟩],
    [⟨"s1", "psy1", "patJ", 960, 30, "scheduled"⟩], [], []⟩

/-- The similarity score `findBestNameMatch` assigns to a candidate. -/
def nameSimilarity (name : String) (p : Patient) : ℚ :=
  calculateStringSimilarity (toLowerStr name) (toLowerStr p.fullName)

/-- The fuzzy-match candidate of the patient-resolution witness. -/
def patAnna : Patient := ⟨"p1", "psy1", "Anna"⟩

/-- Patients `Anna` and `Bruno` for the fuzzy-match witness. -/
def dbFuzzy : DB := ⟨[], [patAnna, ⟨"p2", "psy1", "Bruno"⟩], [], [], []⟩

/-- The accented/unaccented spelling pairs of the parser vocabulary
(formalizing the claim notion of utterances that differ only in accents). -/
def accentPairs : List (Char × Char) :=
  [('á', 'a'), ('à', 'a'), ('â', 'a'), ('ã', 'a'), ('ä', 'a'),
   ('é', 'e'), ('è', 'e'), ('ê', 'e'),
   ('í', 'i'), ('ó', 'o'), ('ô', 'o'), ('õ', 'o'),
   ('ú', 'u'), ('ü', 'u'), ('ç', 'c'),
   ('Á', 'A'), ('À', 'A'), ('Â', 'A'), ('Ã', 'A'), ('Ä', 'A'),
   ('É', 'E'), ('È', 'E'), ('Ê', 'E'),
   ('Í', 'I'), ('Ó', 'O'), ('Ô', 'O'), ('Õ', 'O'),
   ('Ú', 'U'), ('Ü', 'U'), ('Ç', 'C')]

/-- Replace an accented letter by its unaccented spelling. -/
def stripAccentChar (c : Char) : Char := (accentPairs.lookup c).getD c

/-- The unaccented spelling of an utterance. -/
def stripAccentStr (s : String) : String := String.mk (s.data.map stripAccentChar)

/-- An owner open only on Thursdays `09:00-17:00`. -/
def psySlots : Psychologist :=
  ⟨"psy1", "+5511888880000", "Dr. Slots", 50, [("qui", .range 9 0 17 0)]⟩

/-- A store with one scheduled session at Thursday 08:40-09:30, before the
opening time. -/
def dbSlots : DB :=
  ⟨[psySlots], [⟨"patE", "psy1", "Eva"⟩],
    [⟨"sEarly", "psy1", "patE", 7 * 1440 + 8 * 60 + 40, 50, "scheduled"⟩], [], []⟩

/-! ## Theorems -/

/-- Time-of-day decomposition used by the working-hours check. -/
theorem hours_minutes_eq_minutesOfDay (t : Nat) :
    getHours t * 60 + getMinutes t = minutesOfDay t := by
  unfold getHours getMinutes minutesOfDay
  omega

/-- C2 (amended): the working-hours check constrains only the start time of
day: for a weekday configured with the range `[open, close)` the check
succeeds exactly when the candidate's start time of day lies in
`[open, close)` (end-exclusive); the appointment's end time is not
examined, so a candidate ending at `close` is accepted and so is one ending
after `close`, provided its start is before `close`. -/
theorem working_hours_start_only (datetime : Nat) (workingHours : List (String × DayHours))
    (sh sm eh em : Nat)
    (h : workingHours.lookup (getDayName (dayOfWeek datetime)) = some (.range sh sm eh em)) :
    isWithinWorkingHours datetime workingHours = true ↔
      (sh * 60 + sm ≤ minutesOfDay datetime ∧ minutesOfDay datetime < eh * 60 + em) := by
  unfold isWithinWorkingHours
  rw [h, hours_minutes_eq_minutesOfDay]
  simp

/-- Witness for `working_hours_start_only` at a concrete configuration. -/
theorem working_hours_start_only_witness :
    isWithinWorkingHours (7 * 1440 + 16 * 60 + 11) [("qui", .range 9 0 17 0)] = true ↔
      (9 * 60 + 0 ≤ minutesOfDay (7 * 1440 + 16 * 60 + 11) ∧
        minutesOfDay (7 * 1440 + 16 * 60 + 11) < 17 * 60 + 0) :=
  working_hours_start_only (7 * 1440 + 16 * 60 + 11) [("qui", .range 9 0 17 0)] 9 0 17 0
    (by decide)

/-- C2 (counterexample): a schedule command for Thursday 16:11 with a
50-minute session against working hours `qui 09:00-17:00` is accepted as
valid although its end time 17:01 is one minute past the closing time —
the claim's `one minute past close is invalid` is false on the code. -/
theorem working_hours_end_not_checked :
    (validateScheduleCommand cmdLate "psy1" dbWH (7 * 1440)).isValid = true ∧
    16 * 60 + 11 + 50 = 17 * 60 + 1 := by decide

/-- C3 (counterexample): create a conversation at minute 0 (so
`expiresAt = 5` minutes), update it at minute 4 (which re-`setex`es the
redis TTL but leaves `expiresAt` unchanged), and read at minute 6: the read
is within 5 minutes of the most recent write yet returns `null`, because
`getContext` enforces the stale creation-time `expiresAt`. -/
theorem get_within_ttl_of_update_returns_null :
    (updateContext 4 dataOnlyUpdate (createContext 0 "psy1" none none).2).1.isSome = true ∧
    (getContext 6 (updateContext 4 dataOnlyUpdate (createContext 0 "psy1" none none).2).2).1
      = none ∧
    6 - 4 < 5 := by decide

/-- C3 (amended): for a conversation created at `t0` and updated once at
`t1` (update not touching `expiresAt`), a read at `t2` returns the state
exactly when `t2` is both within the redis TTL of the last write
(`t2 < t1 + 5`) and not past the `expiresAt` recorded at creation
(`t2 ≤ t0 + 5`); the TTL is renewed by the update but the `expiresAt`
field is not. -/
theorem session_state_expiry (t0 t1 t2 : Nat) (pid : String) (upd : ContextUpdates)
    (h0 : t0 ≤ t1) (h1 : t1 < t0 + 5) (hupd : upd.expiresAt = none) :
    (updateContext t1 upd (createContext t0 pid none none).2).1.isSome = true ∧
    ((getContext t2 (updateContext t1 upd (createContext t0 pid none none).2).2).1 ≠ none ↔
      (t2 < t1 + 5 ∧ t2 ≤ t0 + 5)) := by
  have hA : ¬(t0 + defaultExpiryMinutes ≤ t1) := by unfold defaultExpiryMinutes; omega
  have hB : ¬(t0 + defaultExpiryMinutes < t1) := by unfold defaultExpiryMinutes; omega
  simp only [createContext, updateContext, getContext, setContext, clearContext, hupd, hA, hB,
    if_false, Option.getD, Option.or]
  constructor
  · rfl
  · unfold defaultExpiryMinutes
    split_ifs <;> simp <;> omega

/-- Witness for `session_state_expiry`. -/
theorem session_state_expiry_witness :
    ((0 : Nat) ≤ 4 ∧ (4 : Nat) < 0 + 5 ∧ dataOnlyUpdate.expiresAt = none) ∧
    ((updateContext 4 dataOnlyUpdate (createContext 0 "psy1" none none).2).1.isSome = true ∧
      ((getContext 3 (updateContext 4 dataOnlyUpdate
          (createContext 0 "psy1" none none).2).2).1 ≠ none ↔
        ((3 : Nat) < 4 + 5 ∧ (3 : Nat) ≤ 0 + 5))) :=
  ⟨⟨by decide, by decide, by decide⟩,
    session_state_expiry 0 4 3 "psy1" dataOnlyUpdate (by decide) (by decide) (by decide)⟩

/-- C9: in the `awaiting_confirmation` step, a reply containing none of the
positive keywords clears the conversation state, answers with the
cancellation acknowledgement, and performs no mutation of the persistent
store. -/
theorem negative_confirmation_clears_state (context : ConversationContext) (message : String)
    (whatsappNumber : String) (now : Nat) (st : ProcState)
    (hstep : context.step = .AWAITING_CONFIRMATION)
    (hneg : isPositiveResponse message = false) :
    processMessageByStep context message whatsappNumber now st =
      ({ success := true, response := "❌ Operação cancelada.", context := none },
        { db := st.db, store := none }) := by
  unfold processMessageByStep
  rw [hstep]
  unfold handleConfirmation
  rw [hneg]
  simp [clearContext]

/-- Witness for `negative_confirmation_clears_state`. -/
theorem negative_confirmation_clears_state_witness :
    processMessageByStep
        ⟨"psy1", some "schedule", .AWAITING_CONFIRMATION, {}, 0, 5⟩ "não" "+55" 3
        ⟨dbWH, some ⟨⟨"psy1", some "schedule", .AWAITING_CONFIRMATION, {}, 0, 5⟩, 5⟩⟩ =
      ({ success := true, response := "❌ Operação cancelada.", context := none },
        { db := dbWH, store := none }) :=
  negative_confirmation_clears_state _ "não" "+55" 3 _ (by decide) (by decide)

/-- C10: when the key holds no unexpired state, `updateContext` returns
`null` and stores nothing (the store afterwards holds no state for the key:
it is either untouched or cleared of an expired record); consequently a
valid schedule command processed against such a store still succeeds —
the step transition silently does not happen and the returned context is
`null`. -/
theorem update_without_state_is_noop (now : Nat) (upd : ContextUpdates) (store : SessionStore)
    (hexp : (getContext now store).1 = none) :
    (updateContext now upd store = (none, (getContext now store).2) ∧
      (getContext now (getContext now store).2).1 = none ∧
      ((getContext now store).2 = store ∨ (getContext now store).2 = none)) ∧
    (∀ (command : ParsedCommand) (context : ConversationContext) (wa : String) (st : ProcState),
      st.store = store →
      (validateScheduleCommand command context.psychologistId st.db now).isValid = true →
      (handleScheduleCommand command context wa now st).1.success = true ∧
        (handleScheduleCommand command context wa now st).1.context = none) := by
  have hupd : ∀ u : ContextUpdates, updateContext now u store =
      (none, (getContext now store).2) := by
    intro u
    unfold updateContext
    rw [show getContext now store = (none, (getContext now store).2) from by
      rw [← hexp]]
  refine ⟨⟨hupd upd, ?_, ?_⟩, ?_⟩
  · unfold getContext at hexp ⊢
    match store with
    | none => rfl
    | some entry =>
      simp only [clearContext] at hexp ⊢
      split_ifs at hexp ⊢ <;> simp_all
  · unfold getContext at hexp ⊢
    match store with
    | none => simp
    | some entry =>
      simp only [clearContext] at hexp ⊢
      split_ifs at hexp ⊢ <;> simp_all
  · intro command context wa st hst hvalid
    unfold handleScheduleCommand
    cases hpat : (validateScheduleCommand command context.psychologistId st.db now).patient with
    | none =>
      simp only [hvalid, hpat, hst, hupd, Bool.not_true, Bool.false_eq_true, if_false,
        Option.isNone_none, if_true]
      exact ⟨trivial, trivial⟩
    | some p =>
      simp only [hvalid, hpat, hst, hupd, Bool.not_true, Bool.false_eq_true, if_false,
        Option.isNone_some, if_true]
      exact ⟨trivial, trivial⟩

/-- Witness for `update_without_state_is_noop`: an expired record (written
at minute 0, read at minute 100) behaves as absent. -/
theorem update_without_state_is_noop_witness :
    ((getContext 100 (some ⟨ctxStale, 5⟩)).1 = none) ∧
    ((handleScheduleCommand cmdLate ctxStale "+55" 100
        ⟨dbNoState, some ⟨ctxStale, 5⟩⟩).1.success = true ∧
      (handleScheduleCommand cmdLate ctxStale "+55" 100
        ⟨dbNoState, some ⟨ctxStale, 5⟩⟩).1.context = none) :=
  ⟨by decide,
    (update_without_state_is_noop 100 {} (some ⟨ctxStale, 5⟩) (by decide)).2 cmdLate ctxStale
      "+55" ⟨dbNoState, some ⟨ctxStale, 5⟩⟩ rfl (by decide)⟩

/-- C1 (counterexample): an existing scheduled session `[960, 990)` and a
candidate `[1000, 1050)` do not intersect (the session ends 10 minutes
before the candidate starts), yet the engine reports a conflict, because
its second query branch flags any session starting within the 60 minutes
before the candidate start regardless of that session's duration. -/
theorem conflict_without_intersection :
    (checkSchedulingConflicts 1000 50 "psy1" dbConf 900).hasConflict = true ∧
    dbConf.sessions.all
      (fun s => s.scheduledAt + s.durationMinutes ≤ 1000 || 1000 + 50 ≤ s.scheduledAt)
      = true := by decide

/-- C1 (amended): in the absence of availability blocks and with every
session's patient present, the engine reports a conflict exactly when some
scheduled session of the owner either starts inside the candidate interval
`[start, start+duration)` or starts strictly before the candidate but no
more than 60 minutes earlier — the existing session's own duration and end
time are never consulted. -/
theorem conflict_iff_start_window (datetime durationMinutes now : Nat) (pid : String)
    (db : DB) (hblocks : db.availabilityBlocks = [])
    (hpat : ∀ s ∈ db.sessions, ∃ p ∈ db.patients, p.id = s.patientId) :
    (checkSchedulingConflicts datetime durationMinutes pid db now).hasConflict = true ↔
      ∃ s ∈ db.sessions, s.psychologistId = pid ∧ s.status = "scheduled" ∧
        ((datetime ≤ s.scheduledAt ∧ s.scheduledAt < datetime + durationMinutes) ∨
          (s.scheduledAt < datetime ∧ datetime - 60 ≤ s.scheduledAt)) := by
  unfold checkSchedulingConflicts
  simp only [hblocks, List.find?_nil]
  cases hfind : db.sessions.find?
      (conflictQueryMatches datetime (datetime + durationMinutes) pid) with
  | none =>
    simp only [hfind]
    constructor
    · intro h; simp at h
    · rintro ⟨s, hs, hpid, hst, hcond⟩
      exfalso
      have hnot := List.find?_eq_none.mp hfind s hs
      apply hnot
      unfold conflictQueryMatches
      simp only [Bool.and_eq_true, Bool.or_eq_true, decide_eq_true_eq, beq_iff_eq]
      exact ⟨⟨hpid, hst⟩, hcond⟩
  | some s =>
    have hmem := List.mem_of_find?_eq_some hfind
    have hp := List.find?_some hfind
    obtain ⟨q, hq, hqid⟩ := hpat s hmem
    have hq' : (db.patients.find? (fun p => p.id == s.patientId)).isSome := by
      rw [List.find?_isSome]
      exact ⟨q, hq, by simp [hqid]⟩
    cases hpfind : db.patients.find? (fun p => p.id == s.patientId) with
    | none => rw [hpfind] at hq'; simp at hq'
    | some p =>
      simp only [hfind, hpfind]
      unfold conflictQueryMatches at hp
      simp only [Bool.and_eq_true, Bool.or_eq_true, decide_eq_true_eq, beq_iff_eq] at hp
      constructor
      · intro _
        exact ⟨s, hmem, hp.1.1, hp.1.2, hp.2⟩
      · intro _
        trivial

/-- Witness for `conflict_iff_start_window`. -/
theorem conflict_iff_start_window_witness :
    (checkSchedulingConflicts 1000 50 "psy1" dbConf 900).hasConflict = true ↔
      ∃ s ∈ dbConf.sessions, s.psychologistId = "psy1" ∧ s.status = "scheduled" ∧
        ((1000 ≤ s.scheduledAt ∧ s.scheduledAt < 1000 + 50) ∨
          (s.scheduledAt < 1000 ∧ 1000 - 60 ≤ s.scheduledAt)) :=
  conflict_iff_start_window 1000 50 900 "psy1" dbConf rfl (by decide)

/-- A successful association-list lookup returns one of the stored values. -/
theorem lookup_mem_values {α β : Type} [BEq α] (l : List (α × β)) (k : α) (v : β)
    (h : l.lookup k = some v) : v ∈ l.map Prod.snd := by
  induction l with
  | nil => simp [List.lookup] at h
  | cons x xs ih =>
    rw [List.lookup] at h
    cases hk : k == x.1 with
    | true => rw [hk] at h; simp at h; simp [h]
    | false => rw [hk] at h; simp [ih h]

/-- C4: a weekday token recognised by the parser's weekday map resolves to
the next occurrence of that weekday strictly after the evaluation instant:
the result falls on the target weekday, lies between 1 and 7 days ahead
(never the same day), and is exactly 7 days ahead when the evaluation
instant already falls on that weekday. -/
theorem next_weekday_strictly_future (now : Nat) (text : String) (target result : Nat)
    (hmap : weekdayMap.lookup
        (String.mk ((toLowerStr text).data.filter (fun c => !c.isWhitespace))) = some target)
    (hres : getNextWeekday now text = some result) :
    dayOfWeek result = target ∧
    dayNumber now + 1 ≤ dayNumber result ∧ dayNumber result ≤ dayNumber now + 7 ∧
    now < result ∧
    (dayOfWeek now = target → dayNumber result = dayNumber now + 7) := by
  have htle : target ≤ 6 := by
    have hv := lookup_mem_values _ _ _ hmap
    simp [weekdayMap] at hv
    rcases hv with h | h | h | h | h | h | h <;> omega
  simp only [getNextWeekday] at hres
  rw [hmap] at hres
  simp only [Option.some.injEq] at hres
  subst hres
  unfold dayOfWeek dayNumber
  constructor
  · split_ifs with h <;> omega
  constructor
  · split_ifs with h <;> omega
  constructor
  · split_ifs with h <;> omega
  constructor
  · split_ifs with h <;> omega
  · intro hsame
    split_ifs with h <;> omega

/-- Witness for `next_weekday_strictly_future`: `quinta` evaluated on a
Sunday (day 20373, 2025-10-12). -/
theorem next_weekday_strictly_future_witness :
    dayOfWeek (20377 * 1440) = 4 ∧
    dayNumber (20373 * 1440 + 600) + 1 ≤ dayNumber (20377 * 1440) ∧
    dayNumber (20377 * 1440) ≤ dayNumber (20373 * 1440 + 600) + 7 ∧
    20373 * 1440 + 600 < 20377 * 1440 ∧
    (dayOfWeek (20373 * 1440 + 600) = 4 → dayNumber (20377 * 1440) = dayNumber (20373 * 1440 + 600) + 7) :=
  next_weekday_strictly_future (20373 * 1440 + 600) "quinta" 4 (20377 * 1440)
    (by decide) (by decide)

/-- Unfolding lemma for one step of the best-match fold. -/
theorem bestMatchStep_eq (name : String) (acc : Option Patient × ℚ) (patient : Patient) :
    bestMatchStep name acc patient =
      if 7/10 < nameSimilarity name patient ∧ acc.2 < nameSimilarity name patient then
        (some patient, nameSimilarity name patient)
      else acc := by
  unfold bestMatchStep nameSimilarity
  norm_num [Rat.mkRat_eq_div]

/-- Once the best-match fold holds a candidate it never returns to `none`. -/
theorem foldBest_some_stays (name : String) (l : List Patient) :
    ∀ (p : Patient) (s : ℚ),
      ((l.foldl (bestMatchStep name) (some p, s)).1).isSome = true := by
  induction l with
  | nil => intro p s; rfl
  | cons q l ih =>
    intro p s
    rw [List.foldl_cons, bestMatchStep_eq]
    split_ifs
    · exact ih q _
    · exact ih p s

/-- The best-match fold returns `none` exactly when it started from `none`
and no element beats both the threshold and the starting score. -/
theorem foldBest_none_iff (name : String) (l : List Patient) :
    ∀ (b : Option Patient) (s : ℚ),
      ((l.foldl (bestMatchStep name) (b, s)).1 = none) ↔
        (b = none ∧ ∀ q ∈ l, ¬(7/10 < nameSimilarity name q ∧ s < nameSimilarity name q)) := by
  induction l with
  | nil => intro b s; simp
  | cons q l ih =>
    intro b s
    rw [List.foldl_cons, bestMatchStep_eq]
    split_ifs with hc
    · constructor
      · intro h
        have := foldBest_some_stays name l q (nameSimilarity name q)
        rw [h] at this
        simp at this
      · rintro ⟨-, hall⟩
        exact absurd hc (hall q (by simp))
    · rw [ih]
      constructor
      · rintro ⟨hb, hall⟩
        refine ⟨hb, ?_⟩
        intro r hr
        rcases List.mem_cons.mp hr with rfl | hr
        · exact hc
        · exact hall r hr
      · rintro ⟨hb, hall⟩
        exact ⟨hb, fun r hr => hall r (List.mem_cons_of_mem q hr)⟩

/-- Characterization of a successful best-match fold: the winner sits at a
position such that everything before it scores below the winner (or below
the threshold) and nothing after it beats the winner. -/
theorem foldBest_some_char (name : String) (l : List Patient) :
    ∀ (b : Option Patient) (s : ℚ) (p : Patient),
      (l.foldl (bestMatchStep name) (b, s)).1 = some p →
      (b = some p ∧ ∀ q ∈ l, ¬(7/10 < nameSimilarity name q ∧ s < nameSimilarity name q)) ∨
      (∃ l1 l2, l = l1 ++ p :: l2 ∧ 7/10 < nameSimilarity name p ∧ s < nameSimilarity name p ∧
        (∀ q ∈ l1, nameSimilarity name q ≤ 7/10 ∨ nameSimilarity name q < nameSimilarity name p) ∧
        (∀ q ∈ l2, nameSimilarity name q ≤ 7/10 ∨
          nameSimilarity name q ≤ nameSimilarity name p)) := by
  induction l with
  | nil =>
    intro b s p h
    exact Or.inl ⟨h, by simp⟩
  | cons q l ih =>
    intro b s p hres
    rw [List.foldl_cons, bestMatchStep_eq] at hres
    split_ifs at hres with hc
    · rcases ih (some q) (nameSimilarity name q) p hres with ⟨hqp, hall⟩ | hright
      · right
        have hqp' : q = p := by simpa using hqp
        subst hqp'
        refine ⟨[], l, by simp, hc.1, hc.2, by simp, ?_⟩
        intro r hr
        have := hall r hr
        push_neg at this
        rcases le_or_lt (nameSimilarity name r) (7/10) with h | h
        · exact Or.inl h
        · exact Or.inr (this h)
      · obtain ⟨l1, l2, hsplit, hthr, hscore, hl1, hl2⟩ := hright
        right
        refine ⟨q :: l1, l2, by simp [hsplit], hthr, lt_trans hc.2 hscore, ?_, hl2⟩
        intro r hr
        rcases List.mem_cons.mp hr with rfl | hr
        · exact Or.inr hscore
        · exact hl1 r hr
    · rcases ih b s p hres with ⟨hb, hall⟩ | hright
      · left
        refine ⟨hb, ?_⟩
        intro r hr
        rcases List.mem_cons.mp hr with rfl | hr
        · exact hc
        · exact hall r hr
      · obtain ⟨l1, l2, hsplit, hthr, hscore, hl1, hl2⟩ := hright
        right
        refine ⟨q :: l1, l2, by simp [hsplit], hthr, hscore, ?_, hl2⟩
        intro r hr
        rcases List.mem_cons.mp hr with rfl | hr
        · push_neg at hc
          rcases le_or_lt (nameSimilarity name r) (7/10) with h | h
          · exact Or.inl h
          · exact Or.inr (lt_of_le_of_lt (hc h) hscore)
        · exact hl1 r hr

/-- C5: patient resolution first takes the exact case-insensitive match;
otherwise it scores all of the owner's patients with
`(maxLen - editDistance) / maxLen` similarity and returns `none` exactly
when no candidate exceeds the `0.7` threshold, and otherwise a candidate
above the threshold that strictly beats everything before it and is not
beaten by anything after it (ties resolved in favour of the first seen). -/
theorem patient_resolution (name pid : String) (db : DB) :
    (∀ p, db.patients.find? (fun q => q.psychologistId == pid &&
        toLowerStr q.fullName == toLowerStr name) = some p →
      findPatientByName name pid db = some p) ∧
    (db.patients.find? (fun q => q.psychologistId == pid &&
        toLowerStr q.fullName == toLowerStr name) = none →
      ((findPatientByName name pid db = none ↔
          ∀ q ∈ db.patients.filter (fun q => q.psychologistId == pid),
            nameSimilarity name q ≤ 7/10) ∧
        (∀ p, findPatientByName name pid db = some p →
          ∃ l1 l2, db.patients.filter (fun q => q.psychologistId == pid) = l1 ++ p :: l2 ∧
            7/10 < nameSimilarity name p ∧
            (∀ q ∈ l1, nameSimilarity name q < nameSimilarity name p) ∧
            (∀ q ∈ l2, nameSimilarity name q ≤ nameSimilarity name p)))) := by
  constructor
  · intro p hfind
    unfold findPatientByName
    rw [hfind]
  · intro hnone
    have hfb : findPatientByName name pid db =
        findBestNameMatch name (db.patients.filter (fun p => p.psychologistId == pid)) := by
      unfold findPatientByName
      rw [hnone]
    rw [hfb]
    constructor
    · unfold findBestNameMatch
      split_ifs with hemp
      · rw [List.isEmpty_iff] at hemp
        rw [hemp]
        simp
      · rw [foldBest_none_iff]
        simp only [true_and]
        constructor
        · intro hall q hq
          have := hall q hq
          push_neg at this
          by_contra hgt
          push_neg at hgt
          have h0 : (0 : ℚ) < nameSimilarity name q := lt_trans (by norm_num) hgt
          exact absurd (this hgt) (not_le.mpr h0)
        · intro hall q hq
          intro ⟨h1, _⟩
          exact absurd h1 (not_lt.mpr (hall q hq))
    · intro p hp
      unfold findBestNameMatch at hp
      split_ifs at hp with hemp
      rcases foldBest_some_char name _ none 0 p hp with ⟨hb, -⟩ | hright
      · exact Option.noConfusion hb
      · obtain ⟨l1, l2, hsplit, hthr, -, hl1, hl2⟩ := hright
        refine ⟨l1, l2, hsplit, hthr, ?_, ?_⟩
        · intro q hq
          rcases hl1 q hq with h | h
          · exact lt_of_le_of_lt h hthr
          · exact h
        · intro q hq
          rcases hl2 q hq with h | h
          · exact le_of_lt (lt_of_le_of_lt h hthr)
          · exact h

/-- Witness for `patient_resolution`: the input `Ana` has no exact match in
`[Anna, Bruno]` and resolves fuzzily to `Anna` (similarity 3/4 > 0.7). -/
theorem patient_resolution_witness :
    ∃ l1 l2, dbFuzzy.patients.filter (fun q => q.psychologistId == "psy1") =
        l1 ++ patAnna :: l2 ∧
      7/10 < nameSimilarity "Ana" patAnna ∧
      (∀ q ∈ l1, nameSimilarity "Ana" q < nameSimilarity "Ana" patAnna) ∧
      (∀ q ∈ l2, nameSimilarity "Ana" q ≤ nameSimilarity "Ana" patAnna) :=
  ((patient_resolution "Ana" "psy1" dbFuzzy).2 (by decide)).2 patAnna (by decide)

/-- If no regex of a group matches, the group yields nothing. -/
theorem firstRegexMatch_none (regexes : List Re) (normalized : List Char)
    (h : ∀ r ∈ regexes, regexSearch r normalized = none) :
    firstRegexMatch regexes normalized = none := by
  induction regexes with
  | nil => rfl
  | cons r rest ih =>
    unfold firstRegexMatch
    rw [h r (by simp)]
    exact ih (fun r' hr' => h r' (List.mem_cons_of_mem r hr'))

/-- If no regex of any group matches, the pattern loop yields nothing. -/
theorem tryCommandPatterns_none (pats : List CommandPattern) (normalized : List Char)
    (originalText : String)
    (h : ∀ p ∈ pats, ∀ r ∈ p.patterns, regexSearch r normalized = none) :
    tryCommandPatterns pats normalized originalText = none := by
  induction pats with
  | nil => rfl
  | cons p rest ih =>
    unfold tryCommandPatterns
    rw [firstRegexMatch_none p.patterns normalized (h p (by simp))]
    exact ih (fun p' hp' => h p' (List.mem_cons_of_mem p hp'))

/-- C6: `parse` is total by construction, and on any input on which none of
the ordered intent patterns matches the normalized text — the empty string
and nonsense text among them — it returns exactly
`{action: unknown, confidence: 0}` with the original utterance attached. -/
theorem parse_unmatched_is_unknown (now : Nat) (message : String)
    (h : ∀ p ∈ commandPatterns now, ∀ r ∈ p.patterns,
      regexSearch r (normalizeMessage message).data = none) :
    parse now message =
      { action := "unknown", confidence := 0, originalText := message } := by
  unfold parse
  simp only [tryCommandPatterns_none (commandPatterns now) (normalizeMessage message).data
    message h]

/-- Witness for `parse_unmatched_is_unknown`: the empty string and
`blablabla nonsense`. -/
theorem parse_unmatched_is_unknown_witness :
    parse 0 "" = { action := "unknown", confidence := 0, originalText := "" } ∧
    parse 0 "blablabla nonsense" =
      { action := "unknown", confidence := 0, originalText := "blablabla nonsense" } :=
  ⟨parse_unmatched_is_unknown 0 "" (by decide),
    parse_unmatched_is_unknown 0 "blablabla nonsense" (by decide)⟩

/-- A successful association-list lookup pairs the key with the value. -/
theorem lookup_pair_mem {α β : Type} [BEq α] [LawfulBEq α] (l : List (α × β)) (k : α) (v : β)
    (h : l.lookup k = some v) : (k, v) ∈ l := by
  induction l with
  | nil => simp [List.lookup] at h
  | cons x xs ih =>
    rw [List.lookup] at h
    cases hk : k == x.1 with
    | true =>
      rw [hk] at h
      simp only [Option.some.injEq] at h
      have hk' : k = x.1 := eq_of_beq hk
      simp [hk', ← h]
    | false =>
      rw [hk] at h
      exact List.mem_cons_of_mem x (ih h)

/-- The character-level normalization (lower-case, NFD, mark removal) of an
accented letter agrees with that of its unaccented spelling. -/
theorem normalizeChar_stripAccent (c : Char) :
    (nfdChar (toLowerChar (stripAccentChar c))).filter (fun x => !isCombiningMark x) =
      (nfdChar (toLowerChar c)).filter (fun x => !isCombiningMark x) := by
  unfold stripAccentChar
  cases h : accentPairs.lookup c with
  | none => rfl
  | some b =>
    have hmem := lookup_pair_mem accentPairs c b h
    fin_cases hmem <;> rfl

/-- Source `normalizeMessage` cannot tell an utterance from its unaccented
spelling. -/
theorem normalizeMessage_stripAccent (s : String) :
    normalizeMessage (stripAccentStr s) = normalizeMessage s := by
  unfold normalizeMessage stripAccentStr toLowerStr
  congr 2
  simp only [List.map_map]
  induction s.data with
  | nil => rfl
  | cons c l ih =>
    simp only [List.map_cons, List.flatMap_cons, List.filter_append, ih,
      List.append_cancel_right_eq]
    exact normalizeChar_stripAccent c

/-- The datetime produced by every extractor depends only on the capture
groups, never on the original utterance. -/
theorem extract_datetime_indep (now : Nat) :
    ∀ p ∈ commandPatterns now, ∀ (caps : Caps) (o1 o2 : String),
      (p.extract caps o1).datetime = (p.extract caps o2).datetime := by
  intro p hp caps o1 o2
  fin_cases hp <;> rfl

/-- The pattern loop produces, for two original texts with the same
normalized form, results with the same datetime. -/
theorem tryCommandPatterns_shape (pats : List CommandPattern) (norm : List Char)
    (o1 o2 : String)
    (hind : ∀ p ∈ pats, ∀ (caps : Caps) (oa ob : String),
      (p.extract caps oa).datetime = (p.extract caps ob).datetime) :
    (tryCommandPatterns pats norm o1 = none ∧ tryCommandPatterns pats norm o2 = none) ∨
    (∃ c1 c2, tryCommandPatterns pats norm o1 = some c1 ∧
      tryCommandPatterns pats norm o2 = some c2 ∧ c1.datetime = c2.datetime) := by
  induction pats with
  | nil => exact Or.inl ⟨rfl, rfl⟩
  | cons p rest ih =>
    unfold tryCommandPatterns
    cases hm : firstRegexMatch p.patterns norm with
    | some caps =>
      exact Or.inr ⟨p.extract caps o1, p.extract caps o2, rfl, rfl,
        hind p (by simp) caps o1 o2⟩
    | none =>
      exact ih (fun p' hp' => hind p' (List.mem_cons_of_mem p hp'))

/-- C7: two utterances that differ only in accented versus unaccented
spelling (the second being the accent-stripped form of the first) parse,
at the same instant, to the identical resolved date. -/
theorem parse_accent_insensitive (now : Nat) (s1 s2 : String)
    (h : stripAccentStr s1 = s2) :
    (parse now s1).datetime = (parse now s2).datetime := by
  subst h
  have hnorm := normalizeMessage_stripAccent s1
  unfold parse
  rw [hnorm]
  rcases tryCommandPatterns_shape (commandPatterns now) (normalizeMessage s1).data s1
      (stripAccentStr s1) (extract_datetime_indep now) with ⟨h1, h2⟩ | ⟨c1, c2, h1, h2, hdt⟩
  · simp only [h1, h2]
  · simp only [h1, h2]
    exact hdt

/-- Witness for `parse_accent_insensitive`: `amanhã` versus `amanha`. -/
theorem parse_accent_insensitive_witness :
    (parse 0 "agendar ana amanhã as 9h").datetime =
      (parse 0 "agendar ana amanha as 9h").datetime :=
  parse_accent_insensitive 0 "agendar ana amanhã as 9h" "agendar ana amanha as 9h" (by decide)

/-- Every slot emitted by the scan loop starts at a 30-minute step from the
loop's starting time, fits (with its full duration) before `dayEnd`, and is
conflict-free against the fetched session list. -/
theorem slotLoopIter_mem (dayEnd durationMinutes : Nat) (existingSessions : List Session) :
    ∀ (iter currentTime : Nat) (slot : AvailableSlot),
      slot ∈ slotLoopIter dayEnd durationMinutes existingSessions iter currentTime →
      slot.stop = slot.start + durationMinutes ∧ currentTime ≤ slot.start ∧
        slot.stop ≤ dayEnd ∧ (slot.start - currentTime) % 30 = 0 ∧
        slotConflicts slot.start slot.stop existingSessions = false := by
  intro iter
  induction iter with
  | zero => intro currentTime slot h; exact absurd h (by simp [slotLoopIter])
  | succ iter ih =>
    intro currentTime slot h
    simp only [slotLoopIter] at h
    split_ifs at h with htime hconf
    · obtain ⟨h1, h2, h3, h4, h5⟩ := ih (currentTime + 30) slot h
      exact ⟨h1, by omega, h3, by omega, h5⟩
    · rcases List.mem_cons.mp h with rfl | h
      · refine ⟨rfl, le_refl _, htime, by simp, ?_⟩
        simpa using hconf
      · obtain ⟨h1, h2, h3, h4, h5⟩ := ih (currentTime + 30) slot h
        exact ⟨h1, by omega, h3, by omega, h5⟩
    · exact absurd h (by simp)

/-- A slot that does not conflict with a fetched session list is disjoint
from every session in it. -/
theorem slotConflicts_false_disjoint (start stop : Nat) (sessions : List Session)
    (h : slotConflicts start stop sessions = false) :
    ∀ s ∈ sessions, stop ≤ s.scheduledAt ∨ s.scheduledAt + s.durationMinutes ≤ start := by
  intro s hs
  unfold slotConflicts at h
  rw [List.any_eq_false] at h
  have := h s hs
  simp only [Bool.or_eq_true, Bool.and_eq_true, decide_eq_true_eq, not_or, not_and] at this
  omega

/-- Every slot reported by the day loop belongs to one of the scanned
days. -/
theorem findSlotsLoop_mem (preferredDate durationMinutes : Nat) (pid : String)
    (workingHours : List (String × DayHours)) (db : DB) (now : Nat) :
    ∀ (remaining i : Nat) (acc : List AvailableSlot) (slot : AvailableSlot),
      slot ∈ findSlotsLoop preferredDate durationMinutes pid workingHours db now
        i remaining acc →
      slot ∈ acc ∨ ∃ j, i ≤ j ∧ j < i + remaining ∧
        slot ∈ getDayAvailableSlots (preferredDate + j * 1440) durationMinutes pid
          workingHours db now := by
  intro remaining
  induction remaining with
  | zero => intro i acc slot h; exact Or.inl h
  | succ remaining ih =>
    intro i acc slot h
    simp only [findSlotsLoop] at h
    split_ifs at h with hfull
    · rcases List.mem_append.mp h with h | h
      · exact Or.inl h
      · exact Or.inr ⟨i, le_refl i, by omega, h⟩
    · rcases ih (i + 1) _ slot h with h | ⟨j, hj1, hj2, hj3⟩
      · rcases List.mem_append.mp h with h | h
        · exact Or.inl h
        · exact Or.inr ⟨i, le_refl i, by omega, h⟩
      · exact Or.inr ⟨j, by omega, by omega, hj3⟩

/-- C8 (amended): the free-slot search returns at most 6 slots; a day whose
working hours are closed (or absent) contributes none; and every returned
slot belongs to one of the scanned days, starts on a 30-minute step from
that day's starting point (the opening time, or `now` rounded up to the
next half hour when the scanned day is today and the opening has passed),
fits with its whole duration inside the day's working window, and does not
overlap any existing scheduled appointment of the owner *whose start time
was fetched for that day*, i.e. one lying in `[dayStart, date + 24h)` — an
appointment that starts before the day's opening time is not fetched and
may still overlap a returned slot (see the counterexample). -/
theorem free_slot_search_sound (preferredDate durationMinutes now daysToCheck : Nat)
    (pid : String) (db : DB) (psy : Psychologist)
    (hfind : db.psychologists.find? (fun p => p.id == pid) = some psy) :
    (findAvailableSlots preferredDate durationMinutes pid db now daysToCheck).length ≤ 6 ∧
    (∀ date dur,
      (psy.workingHours.lookup (getDayName (dayOfWeek date)) = none ∨
        psy.workingHours.lookup (getDayName (dayOfWeek date)) = some .closed) →
      getDayAvailableSlots date dur pid psy.workingHours db now = []) ∧
    (∀ slot ∈ findAvailableSlots preferredDate durationMinutes pid db now daysToCheck,
      ∃ i, i < daysToCheck ∧ ∃ sh sm eh em,
        psy.workingHours.lookup (getDayName (dayOfWeek (preferredDate + i * 1440))) =
          some (.range sh sm eh em) ∧
        slot.stop = slot.start + durationMinutes ∧
        (let date := preferredDate + i * 1440
         let dayStart := midnightOf date + (sh * 60 + sm)
         let dayEnd := midnightOf date + (eh * 60 + em)
         let start0 := if dayNumber date == dayNumber now && dayStart < now then
             roundUpTo30 now else dayStart
         start0 ≤ slot.start ∧ slot.stop ≤ dayEnd ∧ (slot.start - start0) % 30 = 0 ∧
         ∀ s ∈ db.sessions, s.psychologistId = pid → s.status = "scheduled" →
           dayStart ≤ s.scheduledAt → s.scheduledAt < date + 1440 →
           slot.stop ≤ s.scheduledAt ∨ s.scheduledAt + s.durationMinutes ≤ slot.start)) := by
  refine ⟨?_, ?_, ?_⟩
  · unfold findAvailableSlots
    rw [hfind]
    exact List.length_take_le 6 _
  · intro date dur hclosed
    unfold getDayAvailableSlots
    rcases hclosed with h | h <;> rw [h]
  · intro slot hslot
    unfold findAvailableSlots at hslot
    rw [hfind] at hslot
    have hslot' := List.take_subset 6 _ hslot
    rcases findSlotsLoop_mem preferredDate durationMinutes pid psy.workingHours db now
        daysToCheck 0 [] slot hslot' with h | ⟨j, -, hj2, hj3⟩
    · exact absurd h (by simp)
    · refine ⟨j, by omega, ?_⟩
      unfold getDayAvailableSlots at hj3
      cases hwh : psy.workingHours.lookup (getDayName (dayOfWeek (preferredDate + j * 1440))) with
      | none => rw [hwh] at hj3; exact absurd hj3 (by simp)
      | some dh =>
        cases dh with
        | closed => rw [hwh] at hj3; exact absurd hj3 (by simp)
        | range sh sm eh em =>
          rw [hwh] at hj3
          refine ⟨sh, sm, eh, em, rfl, ?_⟩
          obtain ⟨h1, h2, h3, h4, h5⟩ := slotLoopIter_mem _ _ _ _ _ _ hj3
          refine ⟨h1, ?_⟩
          refine ⟨h2, h3, h4, ?_⟩
          intro s hs hspid hsst hsge hslt
          refine slotConflicts_false_disjoint _ _ _ h5 s ?_
          rw [List.mem_filter]
          refine ⟨hs, ?_⟩
          simp [hspid, hsst, hsge, hslt]

/-- C8 (counterexample): an existing scheduled appointment at 08:40-09:30
starts before the 09:00 opening time and is therefore not fetched by the
day query (`scheduledAt >= dayStart`); the slot search then returns the
09:00-09:50 slot, which overlaps it — the claim's `no returned slot
overlaps any existing scheduled appointment of that owner` is false on the
code. -/
theorem slot_overlapping_early_session :
    ∃ slot ∈ findAvailableSlots (7 * 1440 + 9 * 60) 50 "psy1" dbSlots (6 * 1440) 7,
      ∃ s ∈ dbSlots.sessions, s.psychologistId = "psy1" ∧ s.status = "scheduled" ∧
        s.scheduledAt < slot.stop ∧ slot.start < s.scheduledAt + s.durationMinutes := by
  decide

/-- Witness for `free_slot_search_sound` at the counterexample
configuration. -/
theorem free_slot_search_sound_witness :
    (findAvailableSlots (7 * 1440 + 9 * 60) 50 "psy1" dbSlots (6 * 1440) 7).length ≤ 6 ∧
    (∀ date dur,
      (psySlots.workingHours.lookup (getDayName (dayOfWeek date)) = none ∨
        psySlots.workingHours.lookup (getDayName (dayOfWeek date)) = some .closed) →
      getDayAvailableSlots date dur "psy1" psySlots.workingHours dbSlots (6 * 1440) = []) ∧
    (∀ slot ∈ findAvailableSlots (7 * 1440 + 9 * 60) 50 "psy1" dbSlots (6 * 1440) 7,
      ∃ i, i < 7 ∧ ∃ sh sm eh em,
        psySlots.workingHours.lookup
            (getDayName (dayOfWeek (7 * 1440 + 9 * 60 + i * 1440))) =
          some (.range sh sm eh em) ∧
        slot.stop = slot.start + 50 ∧
        (let date := 7 * 1440 + 9 * 60 + i * 1440
         let dayStart := midnightOf date + (sh * 60 + sm)
         let dayEnd := midnightOf date + (eh * 60 + em)
         let start0 := if dayNumber date == dayNumber (6 * 1440) &&
             dayStart < 6 * 1440 then roundUpTo30 (6 * 1440) else dayStart
         start0 ≤ slot.start ∧ slot.stop ≤ dayEnd ∧ (slot.start - start0) % 30 = 0 ∧
         ∀ s ∈ dbSlots.sessions, s.psychologistId = "psy1" → s.status = "scheduled" →
           dayStart ≤ s.scheduledAt → s.scheduledAt < date + 1440 →
           slot.stop ≤ s.scheduledAt ∨ s.scheduledAt + s.durationMinutes ≤ slot.start)) :=
  free_slot_search_sound (7 * 1440 + 9 * 60) 50 (6 * 1440) 7 "psy1" dbSlots psySlots
    (by decide)
